import Mathlib

/-!
Shallow embedding of the virtual-DOM diff/patch engine of
`src/packages/solidstep/utils/cache.ts` (the diff/patch half of the file:
constants, `VirtualNode`, `DiffResult`, the tree matcher, `diffChildren` /
`diffNode` / `diff`, `applyDiff` / `apply`, `invertDiff` / `undo`, and the
conversions `nodeToObj` / `objToNode`).

Modelling conventions:
* JavaScript objects with optional fields become structures / inductives with
  `Option` fields; `undefined` is `none`.
* `Record<string, string>` attribute maps become insertion-ordered association
  lists with unique keys; `Object.keys` order is insertion order.
* Live DOM nodes (`Node`) become the pure tree `LiveTree`; DOM mutation becomes
  explicit state passing (each operation returns the updated tree).  DOM
  exceptions (for example `HierarchyRequestError` from `appendChild` on a text
  node) and thrown hook errors travel in an `Except String` channel.
* Machine numbers: all indices and counters are `Nat`; similarity scores are
  exact rationals (`Rat`), with the source's `0.7` / `0.5` literals as
  `mkRat 7 10` / `mkRat 1 2`; `diffcap: Number.POSITIVE_INFINITY` is
  `Option Nat` with `none` for infinity.
* Recursive tree walks take an explicit fuel argument (first parameter) so that
  every definition is structurally recursive and kernel-computable; fuel is a
  termination device only and every theorem either quantifies over it or uses a
  fuel that exceeds the depth of the concrete inputs.
-/

set_option linter.unusedVariables false

namespace Solidstep

/-- Action name constants, mirroring the `ACTIONS` table of cache.ts. -/
def ADD_ELEMENT : String := "addElement"

/-- `ACTIONS.REMOVE_ELEMENT` of cache.ts. -/
def REMOVE_ELEMENT : String := "removeElement"

/-- `ACTIONS.RELOCATE_ELEMENT` of cache.ts. -/
def RELOCATE_ELEMENT : String := "relocateElement"

/-- `ACTIONS.MODIFY_TEXT` of cache.ts (the string is `modifyTextElement`). -/
def MODIFY_TEXT : String := "modifyTextElement"

/-- `ACTIONS.REPLACE_ELEMENT` of cache.ts. -/
def REPLACE_ELEMENT : String := "replaceElement"

/-- `ACTIONS.ADD_ATTRIBUTE` of cache.ts. -/
def ADD_ATTRIBUTE : String := "addAttribute"

/-- `ACTIONS.REMOVE_ATTRIBUTE` of cache.ts. -/
def REMOVE_ATTRIBUTE : String := "removeAttribute"

/-- `ACTIONS.MODIFY_ATTRIBUTE` of cache.ts. -/
def MODIFY_ATTRIBUTE : String := "modifyAttribute"

/-- `ACTIONS.MODIFY_VALUE` of cache.ts. -/
def MODIFY_VALUE : String := "modifyValue"

/-- `ACTIONS.MODIFY_CHECKED` of cache.ts. -/
def MODIFY_CHECKED : String := "modifyChecked"

/-- `ACTIONS.MODIFY_SELECTED` of cache.ts. -/
def MODIFY_SELECTED : String := "modifySelected"

/-- `NODE_TYPES.ELEMENT` of cache.ts. -/
def NT_ELEMENT : Nat := 1

/-- `NODE_TYPES.TEXT` of cache.ts. -/
def NT_TEXT : Nat := 3

/-- `NODE_TYPES.COMMENT` of cache.ts. -/
def NT_COMMENT : Nat := 8

/-- `NODE_TYPES.DOCUMENT_FRAGMENT` of cache.ts. -/
def NT_FRAGMENT : Nat := 11

/-- `SKIP_MODES.CHILDREN` of cache.ts. -/
def SKIP_CHILDREN_MODE : String := "children"

/-- `SKIP_MODES.FULL` of cache.ts. -/
def SKIP_FULL_MODE : String := "full"

/-- The `VirtualNode` interface of cache.ts: one loosely typed record whose
optional fields become `Option`s.  Field order and names follow the source
(`dataF` for `data` and so on, suffixed to leave room for accessor names). -/
inductive VirtualNode where
  | mk (nodeTypeF : Nat) (nodeNameF : String) (routeF : List Nat)
       (dataF : Option String)
       (attributesF : Option (List (String × String)))
       (valueF : Option String) (checkedF : Option Bool) (selectedF : Option Bool)
       (childNodesF : Option (List VirtualNode))
       (innerDoneF : Bool) (skipFullF : Bool)
  deriving Repr

namespace VirtualNode

/-- Accessor for the `nodeType` field. -/
def nodeType : VirtualNode → Nat
  | .mk t _ _ _ _ _ _ _ _ _ _ => t

/-- Accessor for the `nodeName` field. -/
def nodeName : VirtualNode → String
  | .mk _ n _ _ _ _ _ _ _ _ _ => n

/-- Accessor for the `route` field. -/
def route : VirtualNode → List Nat
  | .mk _ _ r _ _ _ _ _ _ _ _ => r

/-- Accessor for the `data` field (`Text`/`Comment` payload). -/
def dataV : VirtualNode → Option String
  | .mk _ _ _ d _ _ _ _ _ _ _ => d

/-- Accessor for the `attributes` field. -/
def attributes : VirtualNode → Option (List (String × String))
  | .mk _ _ _ _ a _ _ _ _ _ _ => a

/-- Accessor for the `value` form-state field. -/
def valueV : VirtualNode → Option String
  | .mk _ _ _ _ _ v _ _ _ _ _ => v

/-- Accessor for the `checked` form-state field. -/
def checkedV : VirtualNode → Option Bool
  | .mk _ _ _ _ _ _ c _ _ _ _ => c

/-- Accessor for the `selected` form-state field. -/
def selectedV : VirtualNode → Option Bool
  | .mk _ _ _ _ _ _ _ s _ _ _ => s

/-- Accessor for the `childNodes` field. -/
def childNodes : VirtualNode → Option (List VirtualNode)
  | .mk _ _ _ _ _ _ _ _ c _ _ => c

/-- Accessor for the transient `innerDone` skip flag. -/
def innerDone : VirtualNode → Bool
  | .mk _ _ _ _ _ _ _ _ _ i _ => i

/-- Accessor for the transient `skipFull` skip flag. -/
def skipFull : VirtualNode → Bool
  | .mk _ _ _ _ _ _ _ _ _ _ s => s

/-- Functional update of the `route` field (models `childObj.route = ...`). -/
def setRoute (r : List Nat) : VirtualNode → VirtualNode
  | .mk t n _ d a v c s ch i sf => .mk t n r d a v c s ch i sf

/-- Functional update of the `innerDone` flag (models `node.innerDone = true`). -/
def setInnerDone : VirtualNode → VirtualNode
  | .mk t n r d a v c s ch _ sf => .mk t n r d a v c s ch true sf

/-- Functional update of the `skipFull` flag (models `node.skipFull = true`). -/
def setSkipFull : VirtualNode → VirtualNode
  | .mk t n r d a v c s ch i _ => .mk t n r d a v c s ch i true

/-- Functional update of the `childNodes` field (used by the skip walk, which
in the source mutates children in place). -/
def setChildNodes (cs : Option (List VirtualNode)) : VirtualNode → VirtualNode
  | .mk t n r d a v c s _ i sf => .mk t n r d a v c s cs i sf

end VirtualNode

/-- The payload type of `DiffResult.oldValue` / `newValue` in cache.ts:
`string | boolean | VirtualNode`. -/
inductive DiffValue where
  | str (s : String)
  | boolV (b : Bool)
  | node (v : VirtualNode)
  deriving Repr

/-- The `DiffResult` interface of cache.ts.  `from`/`to` are Lean keywords, so
the fields are called `fromRoute`/`toRoute`. -/
structure DiffResult where
  action : String
  route : List Nat
  fromRoute : Option (List Nat) := none
  toRoute : Option (List Nat) := none
  element : Option VirtualNode := none
  index : Option Nat := none
  name : Option String := none
  value : Option String := none
  oldValue : Option DiffValue := none
  newValue : Option DiffValue := none
  deriving Repr

/-- The pure model of a live DOM tree (`Node`).  Only the four node kinds the
engine handles exist; an element carries its attribute map, the live
form-control properties `value`/`checked`/`selected`, and its child list.
`document.createElement` is modelled as the `elem` constructor with the given
name (HTML-parser name normalization happens before this point in the source,
so names arrive already normalized). -/
inductive LiveTree where
  | elem (name : String) (attrs : List (String × String))
         (valueP : Option String) (checkedP : Option Bool) (selectedP : Option Bool)
         (children : List LiveTree)
  | textN (dataP : String)
  | commentN (dataP : String)
  | frag (children : List LiveTree)
  deriving Repr

namespace LiveTree

/-- `node.nodeType` of a live node. -/
def nodeType : LiveTree → Nat
  | .elem _ _ _ _ _ _ => NT_ELEMENT
  | .textN _ => NT_TEXT
  | .commentN _ => NT_COMMENT
  | .frag _ => NT_FRAGMENT

/-- `node.childNodes` of a live node (empty for text/comment, as in the DOM). -/
def childNodes : LiveTree → List LiveTree
  | .elem _ _ _ _ _ cs => cs
  | .frag cs => cs
  | _ => []

/-- `node.nodeName` of a live node. -/
def nodeName : LiveTree → String
  | .elem n _ _ _ _ _ => n
  | .textN _ => "#text"
  | .commentN _ => "#comment"
  | .frag _ => "#document-fragment"

/-- The `data` payload of a live text/comment node (empty otherwise). -/
def dataL : LiveTree → String
  | .textN d => d
  | .commentN d => d
  | _ => ""

/-- The live `attributes` collection (empty for non-elements). -/
def attrsL : LiveTree → List (String × String)
  | .elem _ a _ _ _ _ => a
  | _ => []

/-- Replace the child list of an element or fragment (identity otherwise). -/
def setChildren (cs : List LiveTree) : LiveTree → LiveTree
  | .elem n a v c s _ => .elem n a v c s cs
  | .frag _ => .frag cs
  | t => t

/-- True when the node can hold children (insertion into any other node kind
raises `HierarchyRequestError` in the DOM). -/
def isContainer : LiveTree → Bool
  | .elem _ _ _ _ _ _ => true
  | .frag _ => true
  | _ => false

end LiveTree

/-- `getNodeByRoute` of cache.ts: descend `childNodes` by index at each step,
`null` (here `none`) when any index is missing. -/
def getNodeByRoute (root : LiveTree) (route : List Nat) : Option LiveTree :=
  match route with
  | [] => some root
  | i :: rest =>
    match (root.childNodes).get? i with
    | some child => getNodeByRoute child rest
    | none => none

/-- `cloneRoute` of cache.ts (`[...route]`); the identity on pure lists. -/
def cloneRoute (route : List Nat) : List Nat := route

/-- Kernel-computable model of `String.prototype.toUpperCase` (ASCII). -/
def jsToUpper (s : String) : String := String.mk (s.data.map Char.toUpper)

/-- `normalizeNodeName` of cache.ts. -/
def normalizeNodeName (nodeName : String) (caseSensitive : Bool) : String :=
  if caseSensitive then nodeName else jsToUpper nodeName

/-- JavaScript `a || b` on nullable strings: an empty string is falsy. -/
def jsOrS (a b : Option String) : Option String :=
  match a with
  | some s => if s = "" then b else some s
  | none => b

/-- First-match association-list lookup, modelling `record[key]`. -/
def attrLookup (attrs : List (String × String)) (key : String) : Option String :=
  match attrs with
  | [] => none
  | (k, v) :: rest => if k = key then some v else attrLookup rest key

/-- `getElementKey` of cache.ts: `attributes?.['data-key'] || attributes?.id
|| null`.  The `||` chain makes an empty-string key fall through, so the
result is never `some ""`. -/
def getElementKey (node : VirtualNode) : Option String :=
  if node.nodeType ≠ NT_ELEMENT then none
  else
    let attrs := node.attributes.getD []
    jsOrS (jsOrS (attrLookup attrs "data-key") (attrLookup attrs "id")) none

/-- The result type of a `skipPredicate` hook: `boolean | SkipMode`. -/
inductive SkipPredResult where
  | asBool (b : Bool)
  | asMode (m : String)

/-- The first argument handed to a `skipPredicate` hook: the live node when one
is available, otherwise the virtual node itself (the source passes
`(domNode as Node) || (node as unknown as Node)`). -/
inductive DomRef where
  | live (t : LiveTree)
  | virt (v : VirtualNode)

/-- `SkipPredicate` of cache.ts, modelled as a total function. -/
def SkipPredicateFn := DomRef → VirtualNode → SkipPredResult

/-- `PreDiffApplyHook` of cache.ts: receives the operation and the apply root,
returns `boolean | undefined`, and may throw (the `Except` channel). -/
def PreDiffApplyFn := DiffResult → LiveTree → Except String (Option Bool)

/-- `PostDiffApplyHook` of cache.ts; may throw. -/
def PostDiffApplyFn := DiffResult → LiveTree → Except String Unit

/-- `FilterOuterDiffHook` of cache.ts: may return a replacement list or
`undefined`; modelled as total (the claims never exercise a throwing filter). -/
def FilterOuterDiffFn := VirtualNode → VirtualNode → List DiffResult → Option (List DiffResult)

/-- `TextDiffHook` of cache.ts: receives current data, old value and new value
and applies the change itself; modelled as returning the text node's new data
(a capability restricted to mutating the target's payload), and it may throw. -/
def TextDiffFn := String → String → String → Except String String

/-- The `DiffOptions` interface of cache.ts.  `diffcap` is `Option Nat` with
`none` for `Number.POSITIVE_INFINITY`; `document` is the presence of a
live-tree factory.  The declared-but-never-read hooks `preVirtualDiffApply` /
`postVirtualDiffApply` are omitted: no code in cache.ts consults them. -/
structure DiffOptions where
  skipSelector : Option String := none
  skipPredicate : Option SkipPredicateFn := none
  skipAttributes : List String := []
  skipChildren : Bool := false
  skipMode : String := SKIP_CHILDREN_MODE
  debug : Bool := false
  diffcap : Option Nat := none
  valueDiffing : Bool := true
  caseSensitive : Bool := false
  preDiffApply : Option PreDiffApplyFn := none
  postDiffApply : Option PostDiffApplyFn := none
  filterOuterDiff : Option FilterOuterDiffFn := none
  textDiff : Option TextDiffFn := none
  document : Bool := true

/-- `DEFAULT_OPTIONS` of cache.ts (with `document` present, as in a browser
environment where `typeof document !== 'undefined'`). -/
def defaultOptions : DiffOptions := {}

/-- `diffCount.value >= options.diffcap` with an unbounded cap never reached. -/
def capReached (dc : Nat) (cap : Option Nat) : Bool :=
  match cap with
  | some c => c ≤ dc
  | none => false

/-- `elementsMatch` of cache.ts: same node kind, and data-identical for
text/comment, or same normalized tag name for elements; anything else
(including two document fragments) falls through to `false`. -/
def elementsMatch (nodeA nodeB : VirtualNode) (options : DiffOptions) : Bool :=
  if nodeA.nodeType ≠ nodeB.nodeType then false
  else if nodeA.nodeType = NT_TEXT ∨ nodeA.nodeType = NT_COMMENT then
    nodeA.dataV == nodeB.dataV
  else if nodeA.nodeType = NT_ELEMENT then
    normalizeNodeName nodeA.nodeName options.caseSensitive ==
      normalizeNodeName nodeB.nodeName options.caseSensitive
  else false

/-- Insert a key into an insertion-ordered key set unless already present. -/
def insertUniqueKey (l : List String) (x : String) : List String :=
  if l.contains x then l else l ++ [x]

/-- `new Set([...Object.keys(a), ...Object.keys(b)])`: union of the two key
lists in first-insertion order. -/
def unionKeys (a b : List String) : List String :=
  (a ++ b).foldl insertUniqueKey []

/-- `calculateSimilarity` of cache.ts: `0` on mismatch, `1` for non-elements
and for elements without attributes, otherwise the fraction of the attribute
key union on which both sides agree, as an exact rational. -/
def calculateSimilarity (nodeA nodeB : VirtualNode) (options : DiffOptions) : Rat :=
  if ¬ elementsMatch nodeA nodeB options then 0
  else if nodeA.nodeType ≠ NT_ELEMENT then 1
  else
    let attrsA := nodeA.attributes.getD []
    let attrsB := nodeB.attributes.getD []
    let allKeys := unionKeys (attrsA.map Prod.fst) (attrsB.map Prod.fst)
    if allKeys.length = 0 then 1
    else
      let agreeing := (allKeys.filter
        (fun key => attrLookup attrsA key == attrLookup attrsB key)).length
      mkRat agreeing allKeys.length

/-- Strict `>` on rationals as a boolean, used for the source's score
comparisons (`score > 0.7`, `score > bestScore`, ...). -/
def ratGt (a b : Rat) : Bool := Rat.blt b a

/-- The `0.7` fast-path threshold of cache.ts. -/
def seventyPercent : Rat := mkRat 7 10

/-- The `0.5` acceptance threshold of cache.ts. -/
def fiftyPercent : Rat := mkRat 1 2

/-- Split a character list at every occurrence of a separator (JavaScript
`String.prototype.split` with a single-character separator). -/
def splitCharList (sep : Char) : List Char → List (List Char)
  | [] => [[]]
  | c :: rest =>
    match splitCharList sep rest with
    | [] => [[]]
    | g :: gs => if c = sep then [] :: g :: gs else (c :: g) :: gs

/-- `selector.split(',')`, kernel-computable. -/
def splitComma (s : String) : List String :=
  (splitCharList ',' s.data).map String.mk

/-- `String.prototype.trim`, kernel-computable. -/
def jsTrim (s : String) : String :=
  String.mk (((s.data.dropWhile Char.isWhitespace).reverse.dropWhile Char.isWhitespace).reverse)

/-- One character of the `\w` class plus dash: `[\w-]`. -/
def isWordDash (c : Char) : Bool := c.isAlphanum || c = '_' || c = '-'

/-- The `/^[a-zA-Z][\w-]*$/` test used for plain tag selectors. -/
def isTagPattern (s : String) : Bool :=
  match s.data with
  | [] => false
  | c :: rest => c.isAlpha && rest.all isWordDash

/-- `attributes?.class?.split(/\s+/) || []`: whitespace-run split as performed
by JavaScript (a leading whitespace run contributes one empty field). -/
def jsSplitWhitespaceRuns (s : String) : List String :=
  let words := ((s.data.splitOnP Char.isWhitespace).filter (· ≠ [])).map String.mk
  match s.data with
  | [] => [""]
  | c :: _ => if c.isWhitespace then "" :: words else words

/-- Parse of the attribute-selector pattern
`/^\[([^\]=]+)(?:=["']?([^"'\]]+)["']?)?\]$/`: returns the attribute name and
the optional expected value on a full match. -/
def parseAttrSelector (s : String) : Option (String × Option String) :=
  match s.data with
  | '[' :: rest =>
    if rest.getLast? = some ']' then
      let inner := rest.dropLast
      let namePart := inner.takeWhile (fun c => c ≠ '=')
      let valPart := inner.drop namePart.length
      if namePart = [] ∨ ¬ namePart.all (fun c => c ≠ ']' ∧ c ≠ '=') then none
      else
        match valPart with
        | [] => some (String.mk namePart, none)
        | '=' :: rawVal =>
          let v1 := match rawVal with
            | q :: tl => if q = '"' ∨ q = '\'' then tl else rawVal
            | [] => []
          let v2 := match v1.getLast? with
            | some q => if q = '"' ∨ q = '\'' then v1.dropLast else v1
            | none => v1
          if v2 ≠ [] ∧ v2.all (fun c => c ≠ '"' ∧ c ≠ '\'' ∧ c ≠ ']') then
            some (String.mk namePart, some (String.mk v2))
          else none
        | _ => none
    else none
  | _ => none

/-- Parse of `/^([a-zA-Z][\w-]*)SEP([a-zA-Z][\w-]*)$/` for a separator
character (`.` for tag-with-class, `#` for tag-with-id). -/
def parseTagSepPattern (sep : Char) (s : String) : Option (String × String) :=
  let pre := s.data.takeWhile (fun c => c ≠ sep)
  let post := s.data.drop pre.length
  match post with
  | c :: rest =>
    if c = sep ∧ isTagPattern (String.mk pre) ∧ isTagPattern (String.mk rest) then
      some (String.mk pre, String.mk rest)
    else none
  | [] => none

/-- `matchesSimpleSelector` of cache.ts: the supported selector forms are a
plain tag, `#id`, `.class`, `[attr]` / `[attr=value]`, `tag.class` and
`tag#id`, tried in that order. -/
def matchesSimpleSelector (node : VirtualNode) (selector : String) : Bool :=
  if selector = "" ∨ node.nodeType ≠ NT_ELEMENT then false
  else
    let trimmedSelector := jsTrim selector
    let attrs := node.attributes.getD []
    if isTagPattern trimmedSelector then
      normalizeNodeName node.nodeName false == jsToUpper trimmedSelector
    else if trimmedSelector.data.head? = some '#' then
      let id := String.mk (trimmedSelector.data.drop 1)
      attrLookup attrs "id" == some id
    else if trimmedSelector.data.head? = some '.' then
      let className := String.mk (trimmedSelector.data.drop 1)
      let nodeClasses := (attrLookup attrs "class").map jsSplitWhitespaceRuns |>.getD []
      nodeClasses.contains className
    else
      match parseAttrSelector trimmedSelector with
      | some (attrName, some attrValue) => attrLookup attrs attrName == some attrValue
      | some (attrName, none) => (attrLookup attrs attrName).isSome
      | none =>
        match parseTagSepPattern '.' trimmedSelector with
        | some (tag, className) =>
          let nodeClasses := (attrLookup attrs "class").map jsSplitWhitespaceRuns |>.getD []
          normalizeNodeName node.nodeName false == jsToUpper tag &&
            nodeClasses.contains className
        | none =>
          match parseTagSepPattern '#' trimmedSelector with
          | some (tag, id) =>
            normalizeNodeName node.nodeName false == jsToUpper tag &&
              attrLookup attrs "id" == some id
          | none => false

/-- `matchesSelector` of cache.ts: comma-separated union of simple selectors. -/
def matchesSelector (node : VirtualNode) (selector : String) : Bool :=
  if selector = "" then false
  else ((splitComma selector).map jsTrim).any (fun sel => matchesSimpleSelector node sel)

/-- `options.skipMode || SKIP_MODES.CHILDREN` (an empty mode string is falsy). -/
def skipModeOrChildren (options : DiffOptions) : String :=
  if options.skipMode = "" then SKIP_CHILDREN_MODE else options.skipMode

/-- `shouldSkipElement` of cache.ts.  The browser `Element.matches` fast path
is not available to the pure model, so the selector check always takes the
source's Node.js fallback `matchesSelector`; the predicate receives the live
node when available and otherwise the virtual node, exactly as the source's
`(domNode as Node) || (node as unknown as Node)`. -/
def shouldSkipElement (node : VirtualNode) (domNode : Option LiveTree)
    (options : DiffOptions) : Option String :=
  if node.nodeType ≠ NT_ELEMENT then none
  else
    let selectorHit :=
      match options.skipSelector with
      | some sel => matchesSelector node sel
      | none => false
    if selectorHit then some (skipModeOrChildren options)
    else
      match options.skipPredicate with
      | some p =>
        let ref := match domNode with
          | some t => DomRef.live t
          | none => DomRef.virt node
        match p ref node with
        | .asBool true => some (skipModeOrChildren options)
        | .asBool false => none
        | .asMode m =>
          if m = SKIP_CHILDREN_MODE ∨ m = SKIP_FULL_MODE then some m else none
      | none => none

/-- `applySkipMode` of cache.ts. -/
def applySkipMode (node : VirtualNode) (skipMode : String) : VirtualNode :=
  if skipMode = SKIP_CHILDREN_MODE then node.setInnerDone
  else if skipMode = SKIP_FULL_MODE then node.setSkipFull
  else node

/-- The `applySkipLogic` walk defined inside `diff` of cache.ts: resolve the
skip mode of every element top-down (setting `innerDone` / `skipFull` in
place — here by rebuilding the node) and mark every comment node `skipFull`.
The walk recurses only through element children and stops on `skipFull`. -/
def applySkipLogicF : Nat → DiffOptions → VirtualNode → Option LiveTree → VirtualNode
  | 0, _, node, _ => node
  | f + 1, options, node, domNode =>
    if node.nodeType = NT_ELEMENT then
      let node :=
        match shouldSkipElement node domNode options with
        | some skipMode => applySkipMode node skipMode
        | none => node
      if node.childNodes.isSome ∧ ¬ node.skipFull then
        let cs := node.childNodes.getD []
        node.setChildNodes (some (cs.enum.map
          (fun p => applySkipLogicF f options p.2
            ((domNode.map LiveTree.childNodes).getD [] |>.get? p.1))))
      else node
    else if node.nodeType = NT_COMMENT then applySkipMode node SKIP_FULL_MODE
    else node

/-- The result record of `findBestMatch`. -/
structure BestMatch where
  index : Nat
  score : Rat
  keyMatch : Bool
  deriving Repr

/-- The scan loop of `findBestMatch`: walk the remaining `(index, candidate)`
pairs, returning immediately on a truthy-key match and otherwise tracking the
best strictly improving similarity (`bestIndex = -1` is `none`). -/
def findBestMatchGo (oldChild : VirtualNode) (oldKey : Option String)
    (options : DiffOptions) :
    List (Nat × VirtualNode) → Option Nat → Rat → Option BestMatch
  | [], bestIndex, bestScore =>
    if ratGt bestScore fiftyPercent then
      bestIndex.map (fun i => { index := i, score := bestScore, keyMatch := false })
    else none
  | (i, newChild) :: rest, bestIndex, bestScore =>
    let keyHit := match oldKey with
      | some k => getElementKey newChild == some k
      | none => false
    if keyHit then some { index := i, score := 1, keyMatch := true }
    else
      let score := calculateSimilarity oldChild newChild options
      if ratGt score bestScore then findBestMatchGo oldChild oldKey options rest (some i) score
      else findBestMatchGo oldChild oldKey options rest bestIndex bestScore

/-- `findBestMatch` of cache.ts: scan every candidate from `startIndex`
(consumed or not), immediately returning a score-1 key match, otherwise the
maximal-similarity candidate if its score exceeds `0.5`. -/
def findBestMatch (oldChild : VirtualNode) (newChildren : List VirtualNode)
    (startIndex : Nat) (options : DiffOptions) : Option BestMatch :=
  findBestMatchGo oldChild (getElementKey oldChild) options
    (newChildren.enum.drop startIndex) none 0

/-- The `VOID_ELEMENTS` set of cache.ts (the uppercase one used by
`isVoidElement`). -/
def VOID_ELEMENTS : List String :=
  ["AREA", "BASE", "BR", "COL", "EMBED", "HR", "IMG", "INPUT", "LINK", "META",
   "PARAM", "SOURCE", "TRACK", "WBR"]

/-- `isVoidElement` of cache.ts. -/
def isVoidElement (nodeName : String) : Bool :=
  VOID_ELEMENTS.contains (jsToUpper nodeName)

/-- A placeholder `VirtualNode` used where the source would read an
out-of-range array index (never reached on the inputs the algorithm builds). -/
def defaultVNode : VirtualNode := .mk 0 "" [] none none none none none none false false

/-- `diffAttributes` of cache.ts: walk the insertion-ordered union of the two
key sets, skipping configured `skipAttributes`, and emit add / remove / modify
operations. -/
def diffAttributes (oldAttrs newAttrs : Option (List (String × String)))
    (route : List Nat) (options : DiffOptions) : List DiffResult :=
  let oa := oldAttrs.getD []
  let na := newAttrs.getD []
  ((unionKeys (oa.map Prod.fst) (na.map Prod.fst)).map (fun key =>
    if options.skipAttributes.contains key then []
    else
      match attrLookup oa key, attrLookup na key with
      | none, some newVal =>
        [{ action := ADD_ATTRIBUTE, route := cloneRoute route,
           name := some key, value := some newVal : DiffResult }]
      | some oldVal, none =>
        [{ action := REMOVE_ATTRIBUTE, route := cloneRoute route,
           name := some key, value := some oldVal : DiffResult }]
      | some oldVal, some newVal =>
        if oldVal ≠ newVal then
          [{ action := MODIFY_ATTRIBUTE, route := cloneRoute route,
             name := some key, oldValue := some (.str oldVal),
             newValue := some (.str newVal) : DiffResult }]
        else []
      | none, none => [])).flatten

/-- The three form-state comparisons of `diffNode` (the bodies of the
`options.valueDiffing` block): emit `modifyValue` / `modifyChecked` /
`modifySelected` when the new side defines the field and it differs. -/
def formStateDiffs (oldNode newNode : VirtualNode) (route : List Nat) : List DiffResult :=
  (if oldNode.valueV ≠ newNode.valueV ∧ (newNode.valueV).isSome then
    [{ action := MODIFY_VALUE, route := cloneRoute route,
       oldValue := (oldNode.valueV).map .str,
       newValue := (newNode.valueV).map .str : DiffResult }]
  else []) ++
  (if oldNode.checkedV ≠ newNode.checkedV ∧ (newNode.checkedV).isSome then
    [{ action := MODIFY_CHECKED, route := cloneRoute route,
       oldValue := (oldNode.checkedV).map .boolV,
       newValue := (newNode.checkedV).map .boolV : DiffResult }]
  else []) ++
  (if oldNode.selectedV ≠ newNode.selectedV ∧ (newNode.selectedV).isSome then
    [{ action := MODIFY_SELECTED, route := cloneRoute route,
       oldValue := (oldNode.selectedV).map .boolV,
       newValue := (newNode.selectedV).map .boolV : DiffResult }]
  else [])

/-- One record of the `matches` array built by the first pass of
`diffChildren`. -/
structure MatchRec where
  oldIndex : Nat
  newIndex : Nat
  score : Rat
  deriving Repr

/-- One iteration of the first (matching) pass of `diffChildren` over the old
child at index `i`: try the position-preserving fast path (same index, unused,
matching, similarity above `0.7`), otherwise take the best unused
`findBestMatch` result. -/
def pass1Step (newChildren : List VirtualNode) (options : DiffOptions)
    (st : List MatchRec × List Nat × List Nat) (p : Nat × VirtualNode) :
    List MatchRec × List Nat × List Nat :=
  let ms := st.1
  let oldUsed := st.2.1
  let newUsed := st.2.2
  let i := p.1
  let oldChild := p.2
  let positional :=
    match newChildren.get? i with
    | some cand =>
      if ¬ newUsed.contains i ∧ elementsMatch oldChild cand options then
        let similarity := calculateSimilarity oldChild cand options
        if ratGt similarity seventyPercent then some similarity else none
      else none
    | none => none
  match positional with
  | some similarity =>
    (ms ++ [⟨i, i, similarity⟩], oldUsed ++ [i], newUsed ++ [i])
  | none =>
    match findBestMatch oldChild newChildren 0 options with
    | some m =>
      if ¬ newUsed.contains m.index then
        (ms ++ [⟨i, m.index, m.score⟩], oldUsed ++ [i], newUsed ++ [m.index])
      else (ms, oldUsed, newUsed)
    | none => (ms, oldUsed, newUsed)

/-- The whole first pass of `diffChildren`: fold `pass1Step` over the old
children, producing the match list and the two used-index sets. -/
def computeMatches (oldChildren newChildren : List VirtualNode)
    (options : DiffOptions) : List MatchRec × List Nat × List Nat :=
  oldChildren.enum.foldl (pass1Step newChildren options) ([], [], [])

/-- Stable insertion of a match into a list sorted by `oldIndex`. -/
def insertByOldIndex (m : MatchRec) : List MatchRec → List MatchRec
  | [] => [m]
  | x :: xs =>
    if x.oldIndex ≤ m.oldIndex then x :: insertByOldIndex m xs else m :: x :: xs

/-- `matches.sort((a, b) => a.oldIndex - b.oldIndex)`: a stable sort by old
index (JavaScript's sort is stable), as an insertion sort. -/
def sortByOldIndex (ms : List MatchRec) : List MatchRec :=
  ms.foldl (fun acc m => insertByOldIndex m acc) []

/-- The `relocateElement` operation emitted by the second pass of
`diffChildren`. -/
def relocOp (route : List Nat) (m : MatchRec) : DiffResult :=
  { action := RELOCATE_ELEMENT,
    fromRoute := some (route ++ [m.oldIndex]),
    toRoute := some (route ++ [m.newIndex]),
    route := cloneRoute route }

/-- The `removeElement` operation emitted by the third pass of
`diffChildren`. -/
def removeOp (route : List Nat) (i : Nat) (el : VirtualNode) : DiffResult :=
  { action := REMOVE_ELEMENT, route := route ++ [i], element := some el }

/-- The `addElement` operation emitted by the fourth pass of `diffChildren`. -/
def addOp (route : List Nat) (i : Nat) (el : VirtualNode) : DiffResult :=
  { action := ADD_ELEMENT, route := cloneRoute route, element := some el,
    index := some i }

/-- The second pass of `diffChildren`, parameterized by the recursive
node-diff (`recur` is `diffNode` at one less fuel): for each match in order,
emit a relocation when the indices differ (skipping the recursion when the
debug cap test fires, the source's `continue`) and then recurse on the matched
pair at the old child's route, threading the diff counter. -/
def pass2Fold
    (recur : VirtualNode → VirtualNode → List Nat → Nat → List DiffResult × Nat)
    (oldChildren newChildren : List VirtualNode) (route : List Nat)
    (options : DiffOptions) (ms : List MatchRec) (init : List DiffResult × Nat) :
    List DiffResult × Nat :=
  ms.foldl (fun st m =>
    let diffs := st.1
    let dc := st.2
    let oldChild := oldChildren.getD m.oldIndex defaultVNode
    let newChild := newChildren.getD m.newIndex defaultVNode
    let step :=
      if m.oldIndex ≠ m.newIndex then
        let d2 := diffs ++ [relocOp route m]
        (d2, options.debug && decide (dc ≤ d2.length))
      else (diffs, false)
    if step.2 then (step.1, dc)
    else
      let rec2 := recur oldChild newChild (route ++ [m.oldIndex]) dc
      (step.1 ++ rec2.1, rec2.2)) init

/-- The third (removal) pass of `diffChildren`: walk the given index list (the
old indices from highest to lowest), emitting `removeElement` for every
unmatched old child; the boolean is the source's early `return diffs` when the
debug cap test fires. -/
def pass3Go (oldChildren : List VirtualNode) (route : List Nat)
    (options : DiffOptions) (oldUsed : List Nat) (dc : Nat) :
    List Nat → List DiffResult → List DiffResult × Bool
  | [], diffs => (diffs, false)
  | i :: rest, diffs =>
    if oldUsed.contains i then pass3Go oldChildren route options oldUsed dc rest diffs
    else
      let d2 := diffs ++ [removeOp route i (oldChildren.getD i defaultVNode)]
      if options.debug ∧ dc ≤ d2.length then (d2, true)
      else pass3Go oldChildren route options oldUsed dc rest d2

/-- The fourth (addition) pass of `diffChildren`: walk the new indices from
lowest to highest, emitting `addElement` for every unmatched new child, with
the same early-return behavior as the removal pass. -/
def pass4Go (newChildren : List VirtualNode) (route : List Nat)
    (options : DiffOptions) (newUsed : List Nat) (dc : Nat) :
    List Nat → List DiffResult → List DiffResult × Bool
  | [], diffs => (diffs, false)
  | i :: rest, diffs =>
    if newUsed.contains i then pass4Go newChildren route options newUsed dc rest diffs
    else
      let d2 := diffs ++ [addOp route i (newChildren.getD i defaultVNode)]
      if options.debug ∧ dc ≤ d2.length then (d2, true)
      else pass4Go newChildren route options newUsed dc rest d2

/-- `diffChildren` of cache.ts with the recursive node-diff abstracted out:
match, sort by old index, relocate-and-recurse, then removals (descending) and
additions (ascending).  `diffChildren` never bumps the diff counter itself;
only the recursive calls do. -/
def diffChildrenWith
    (recur : VirtualNode → VirtualNode → List Nat → Nat → List DiffResult × Nat)
    (oldChildrenP newChildrenP : Option (List VirtualNode)) (route : List Nat)
    (options : DiffOptions) (dc : Nat) : List DiffResult × Nat :=
  let oldChildren := oldChildrenP.getD []
  let newChildren := newChildrenP.getD []
  let mstate := computeMatches oldChildren newChildren options
  let sorted := sortByOldIndex mstate.1
  let p2 := pass2Fold recur oldChildren newChildren route options sorted ([], dc)
  let p3 := pass3Go oldChildren route options mstate.2.1 p2.2
    ((List.range oldChildren.length).reverse) p2.1
  if p3.2 then (p3.1, p2.2)
  else
    let p4 := pass4Go newChildren route options mstate.2.2 p2.2
      (List.range newChildren.length) p3.1
    (p4.1, p2.2)

/-- `diffNode` of cache.ts: cap check, `skipFull` check, replacement on
mismatch, text/comment data handling, and for elements the
attributes-then-values-then-children order, threading the running diff count
exactly as the source's `diffCount.value` updates do (including the double
count of the element branch's final `diffCount.value += diffs.length`). -/
def diffNodeF : Nat → VirtualNode → VirtualNode → List Nat → DiffOptions → Nat →
    List DiffResult × Nat
  | 0, _, _, _, _, dc => ([], dc)
  | f + 1, oldNode, newNode, route, options, dc =>
    if options.debug ∧ capReached dc options.diffcap then ([], dc)
    else if oldNode.skipFull ∨ newNode.skipFull then ([], dc)
    else if ¬ elementsMatch oldNode newNode options then
      let diffs : List DiffResult :=
        [{ action := REPLACE_ELEMENT, route := cloneRoute route,
           oldValue := some (.node oldNode), newValue := some (.node newNode) }]
      (diffs, dc + diffs.length)
    else if oldNode.nodeType = NT_TEXT ∨ oldNode.nodeType = NT_COMMENT then
      let diffs : List DiffResult :=
        if oldNode.dataV ≠ newNode.dataV then
          [{ action := MODIFY_TEXT, route := cloneRoute route,
             oldValue := (oldNode.dataV).map .str,
             newValue := (newNode.dataV).map .str }]
        else []
      (diffs, dc + diffs.length)
    else if oldNode.nodeType = NT_ELEMENT then
      let attrDiffs := diffAttributes oldNode.attributes newNode.attributes route options
      let diffs := attrDiffs ++
        (if options.valueDiffing then formStateDiffs oldNode newNode route else [])
      let dc2 := dc + diffs.length
      if options.debug ∧ capReached dc2 options.diffcap then (diffs, dc2)
      else if oldNode.innerDone ∨ newNode.innerDone ∨ options.skipChildren then
        (diffs, dc2)
      else
        let childPart := diffChildrenWith
          (fun a b r d => diffNodeF f a b r options d)
          oldNode.childNodes newNode.childNodes route options dc2
        let allDiffs := diffs ++ childPart.1
        (allDiffs, childPart.2 + allDiffs.length)
    else ([], dc)

/-- `diffChildren` of cache.ts at a given fuel for the recursive node diffs. -/
def diffChildrenF (fuel : Nat) (oldChildrenP newChildrenP : Option (List VirtualNode))
    (route : List Nat) (options : DiffOptions) (dc : Nat) : List DiffResult × Nat :=
  diffChildrenWith (fun a b r d => diffNodeF fuel a b r options d)
    oldChildrenP newChildrenP route options dc

/-- `nodeToObj` of cache.ts: convert a live node to a `VirtualNode`, capturing
attributes and (when value-diffing is on) the recognized form state.  As in
the source, each node's `route` is set to `[]` on construction and each child
is then re-addressed to `[i]` only (the source reassigns `childObj.route`
after the recursive call, so grandchild routes are never revisited). -/
def nodeToObjF : Nat → DiffOptions → LiveTree → VirtualNode
  | 0, _, _ => defaultVNode
  | f + 1, options, node =>
    match node with
    | .textN d => .mk NT_TEXT "#text" [] (some d) none none none none none false false
    | .commentN d => .mk NT_COMMENT "#comment" [] (some d) none none none none none false false
    | .elem name attrs v c s children =>
      let objName := normalizeNodeName name options.caseSensitive
      let valueField :=
        if options.valueDiffing ∧ v.isSome ∧
            (["INPUT", "TEXTAREA", "SELECT"].contains objName) then v else none
      let checkedField := if options.valueDiffing then c else none
      let selectedField := if options.valueDiffing then s else none
      let childField :=
        if ¬ isVoidElement objName then
          some (children.enum.map
            (fun p => (nodeToObjF f options p.2).setRoute [p.1]))
        else none
      .mk NT_ELEMENT objName [] none (some attrs) valueField checkedField
        selectedField childField false false
    | .frag children =>
      .mk NT_FRAGMENT "#document-fragment" [] none none none none none
        (some (children.enum.map
          (fun p => (nodeToObjF f options p.2).setRoute [p.1]))) false false

/-- The core of `diff` of cache.ts once input normalization has produced the
two virtual trees `objA`/`objB`: run `applySkipLogic` over both (annotating
them in place in the source), short-circuit when both roots are `skipFull`,
otherwise run `diffNode` from a zero diff count and apply the
`filterOuterDiff` hook.  The second and third components are the annotated
working trees the engine diffs; for every input kind these are conversion
output (parser result or `nodeToObj` rebuild) internal to the call — never a
caller-owned `VirtualNode`, which the dispatch always rebuilds first (see
`diffVN`). -/
def diffMainV (fuel : Nat) (objA objB : VirtualNode)
    (domNodeA domNodeB : Option LiveTree) (options : DiffOptions) :
    List DiffResult × VirtualNode × VirtualNode :=
  let a := applySkipLogicF fuel options objA domNodeA
  let b := applySkipLogicF fuel options objB domNodeB
  if a.skipFull ∧ b.skipFull then ([], a, b)
  else
    let diffs := (diffNodeF fuel a b [] options 0).1
    let diffs :=
      match options.filterOuterDiff with
      | some h => (h a b diffs).getD diffs
      | none => diffs
    (diffs, a, b)

/-- `diff` of cache.ts on the markup-string input path, from the point where
the markup parser (`stringToObj`) has produced the two virtual trees: a
string argument fails the `typeof elementA === 'object'` test, so no live
node accompanies either side (`domNode` is `null`) and the skip walk runs
with no dom counterpart.  Note that a pre-built `VirtualNode` argument does
*not* reach this core unconverted: its numeric `nodeType` satisfies the
dispatch test and sends it through `nodeToObj` first (see `diffVN`). -/
def diffVV (fuel : Nat) (objA objB : VirtualNode) (options : DiffOptions) :
    List DiffResult :=
  (diffMainV fuel objA objB none none options).1

/-- `diff` of cache.ts called with two live-node arguments: both sides are
converted through `nodeToObj` and the live nodes accompany the skip walk. -/
def diffLL (fuel : Nat) (a b : LiveTree) (options : DiffOptions) : List DiffResult :=
  (diffMainV fuel (nodeToObjF fuel options a) (nodeToObjF fuel options b)
    (some a) (some b) options).1

/-- `objToNode` of cache.ts: materialize a `VirtualNode` as a live node.
Throws (the `Except` channel) when no document factory is configured; returns
`none` (`null`) for unrecognized node types; otherwise builds the element with
its attributes, form state and recursively materialized children. -/
def objToNodeF : Nat → DiffOptions → VirtualNode → Except String (Option LiveTree)
  | 0, _, _ => .ok none
  | f + 1, options, obj =>
    if ¬ options.document then .error "Document object is required for objToNode"
    else if obj.nodeType = NT_TEXT then .ok (some (.textN ((obj.dataV).getD "")))
    else if obj.nodeType = NT_COMMENT then .ok (some (.commentN ((obj.dataV).getD "")))
    else if obj.nodeType = NT_ELEMENT ∨ obj.nodeType = NT_FRAGMENT then
      let childListE : Except String (List LiveTree) :=
        ((obj.childNodes).getD []).foldl
          (fun acc c =>
            match acc with
            | .error e => .error e
            | .ok built =>
              match objToNodeF f options c with
              | .error e => .error e
              | .ok none => .ok built
              | .ok (some childNode) => .ok (built ++ [childNode]))
          (.ok [])
      match childListE with
      | .error e => .error e
      | .ok children =>
        if obj.nodeType = NT_ELEMENT then
          .ok (some (.elem obj.nodeName ((obj.attributes).getD [])
            obj.valueV obj.checkedV obj.selectedV children))
        else .ok (some (.frag children))
    else .ok none

/-- Rewrite the node at `route` through `f`, leaving the tree unchanged when
the route does not resolve (callers check resolution first). -/
def mapNodeAt (t : LiveTree) (route : List Nat) (f : LiveTree → LiveTree) : LiveTree :=
  match route with
  | [] => f t
  | i :: rest =>
    match (t.childNodes).get? i with
    | some child => t.setChildren ((t.childNodes).set i (mapNodeAt child rest f))
    | none => t

/-- `parent.removeChild(child)` where the parent sits at `parentRoute` and the
child is its `i`-th. -/
def removeChildAt (t : LiveTree) (parentRoute : List Nat) (i : Nat) : LiveTree :=
  mapNodeAt t parentRoute (fun p => p.setChildren ((p.childNodes).eraseIdx i))

/-- Replace or append one attribute, as `setAttribute` does. -/
def setAttrList (attrs : List (String × String)) (key v : String) :
    List (String × String) :=
  match attrs with
  | [] => [(key, v)]
  | (k, v0) :: rest =>
    if k = key then (key, v) :: rest else (k, v0) :: setAttrList rest key v

/-- `setAttribute` on a live node (elements only; no-op otherwise). -/
def setAttrL (key v : String) : LiveTree → LiveTree
  | .elem n a vv c s cs => .elem n (setAttrList a key v) vv c s cs
  | t => t

/-- `removeAttribute` on a live node. -/
def removeAttrL (key : String) : LiveTree → LiveTree
  | .elem n a vv c s cs => .elem n (a.filter (fun p => p.1 ≠ key)) vv c s cs
  | t => t

/-- Set the `data` payload of a live text/comment node. -/
def setDataL (d : String) : LiveTree → LiveTree
  | .textN _ => .textN d
  | .commentN _ => .commentN d
  | t => t

/-- Set the live `value` property (an element property; on other node kinds
the JavaScript assignment creates an expando invisible to the tree model). -/
def setValueL (v : String) : LiveTree → LiveTree
  | .elem n a _ c s cs => .elem n a (some v) c s cs
  | t => t

/-- Set the live `checked` property. -/
def setCheckedL (b : Bool) : LiveTree → LiveTree
  | .elem n a v _ s cs => .elem n a v (some b) s cs
  | t => t

/-- Set the live `selected` property. -/
def setSelectedL (b : Bool) : LiveTree → LiveTree
  | .elem n a v c _ cs => .elem n a v c (some b) cs
  | t => t

/-- After removing the `removedIndex`-th child of the node at `parentRoute`,
re-address a route that passed through a later sibling (strictly shallower or
unrelated routes are unchanged).  This captures how DOM object references keep
pointing at the same node across a removal. -/
def adjustRouteAfterRemoval (parentRoute : List Nat) (removedIndex : Nat)
    (r : List Nat) : List Nat :=
  match parentRoute, r with
  | [], j :: rest => if removedIndex < j then (j - 1) :: rest else j :: rest
  | p :: ps, j :: rest =>
    if p = j then j :: adjustRouteAfterRemoval ps removedIndex rest else j :: rest
  | _, _ => r

/-- The `switch (diff.action)` of `applyDiff` in cache.ts, one case per
operation; returns the outcome (`Except` carries thrown DOM/hook errors) and
the possibly mutated tree. -/
def applySwitchF (fuel : Nat) (root : LiveTree) (d : DiffResult)
    (options : DiffOptions) (target : Option LiveTree) :
    Except String Bool × LiveTree :=
  if d.action = ADD_ELEMENT then
    let parent? := if d.route.length = 0 then some root else getNodeByRoute root d.route
    match parent?, d.element with
    | some parent, some el =>
      match objToNodeF fuel options el with
      | .error e => (.error e, root)
      | .ok none => (.ok false, root)
      | .ok (some newNode) =>
        if ¬ parent.isContainer then (.error "HierarchyRequestError", root)
        else
          let parent2 :=
            match d.index with
            | some i =>
              if i < (parent.childNodes).length then
                parent.setChildren ((parent.childNodes).insertIdx i newNode)
              else parent.setChildren (parent.childNodes ++ [newNode])
            | none => parent.setChildren (parent.childNodes ++ [newNode])
          (.ok true, mapNodeAt root d.route (fun _ => parent2))
    | _, _ => (.ok false, root)
  else if d.action = REMOVE_ELEMENT then
    match target with
    | none => (.ok false, root)
    | some _ =>
      match d.route with
      | [] => (.ok true, root)
      | _ =>
        (.ok true, removeChildAt root d.route.dropLast ((d.route.getLast?).getD 0))
  else if d.action = RELOCATE_ELEMENT then
    match d.fromRoute, d.toRoute with
    | some fromR, some toR =>
      let fromNode? := getNodeByRoute root fromR
      let toParent? := getNodeByRoute root toR.dropLast
      match fromNode?, toParent? with
      | some fromNode, some toParent =>
        let toIndex? := toR.getLast?
        if fromR.isPrefixOf toR.dropLast then (.error "HierarchyRequestError", root)
        else if ¬ toParent.isContainer then (.error "HierarchyRequestError", root)
        else
          let fp := fromR.dropLast
          let fi := (fromR.getLast?).getD 0
          if fp = toR.dropLast then
            let cs := toParent.childNodes
            match toIndex? with
            | some ti =>
              if ti < cs.length then
                if ti = fi then (.ok true, root)
                else
                  let cs2 := cs.eraseIdx fi
                  let pos := if ti < fi then ti else ti - 1
                  (.ok true, mapNodeAt root fp
                    (fun p => p.setChildren (cs2.insertIdx pos fromNode)))
              else
                (.ok true, mapNodeAt root fp
                  (fun p => p.setChildren (cs.eraseIdx fi ++ [fromNode])))
            | none =>
              (.ok true, mapNodeAt root fp
                (fun p => p.setChildren (cs.eraseIdx fi ++ [fromNode])))
          else
            let root2 := removeChildAt root fp fi
            let tp := adjustRouteAfterRemoval fp fi toR.dropLast
            let inserted :=
              match toIndex? with
              | some ti =>
                if ti < (toParent.childNodes).length then
                  mapNodeAt root2 tp
                    (fun p => p.setChildren ((p.childNodes).insertIdx ti fromNode))
                else
                  mapNodeAt root2 tp (fun p => p.setChildren (p.childNodes ++ [fromNode]))
              | none =>
                mapNodeAt root2 tp (fun p => p.setChildren (p.childNodes ++ [fromNode]))
            (.ok true, inserted)
      | _, _ => (.ok false, root)
    | _, _ => (.ok false, root)
  else if d.action = MODIFY_TEXT then
    match target with
    | none => (.ok false, root)
    | some t =>
      if t.nodeType = NT_TEXT ∨ t.nodeType = NT_COMMENT then
        match options.textDiff, d.oldValue, d.newValue with
        | some hook, some (.str ov), some (.str nv) =>
          match hook t.dataL ov nv with
          | .error e => (.error e, root)
          | .ok newData => (.ok true, mapNodeAt root d.route (setDataL newData))
        | _, _, _ =>
          match d.newValue with
          | some (.str nv) => (.ok true, mapNodeAt root d.route (setDataL nv))
          | _ => (.ok true, root)
      else (.ok true, root)
  else if d.action = REPLACE_ELEMENT then
    match target, d.newValue with
    | some _, some (.node nv) =>
      match objToNodeF fuel options nv with
      | .error e => (.error e, root)
      | .ok none => (.ok false, root)
      | .ok (some newNode) =>
        match d.route with
        | [] => (.ok true, root)
        | _ => (.ok true, mapNodeAt root d.route (fun _ => newNode))
    | _, _ => (.ok false, root)
  else if d.action = ADD_ATTRIBUTE then
    match target, d.name, d.value with
    | some t, some nm, some v =>
      if nm = "" then (.ok false, root)
      else if t.nodeType = NT_ELEMENT then
        (.ok true, mapNodeAt root d.route (setAttrL nm v))
      else (.ok true, root)
    | _, _, _ => (.ok false, root)
  else if d.action = REMOVE_ATTRIBUTE then
    match target, d.name with
    | some t, some nm =>
      if nm = "" then (.ok false, root)
      else if t.nodeType = NT_ELEMENT then
        (.ok true, mapNodeAt root d.route (removeAttrL nm))
      else (.ok true, root)
    | _, _ => (.ok false, root)
  else if d.action = MODIFY_ATTRIBUTE then
    match target, d.name, d.newValue with
    | some t, some nm, some (.str nv) =>
      if nm = "" then (.ok false, root)
      else if t.nodeType = NT_ELEMENT then
        (.ok true, mapNodeAt root d.route (setAttrL nm nv))
      else (.ok true, root)
    | _, _, _ => (.ok false, root)
  else if d.action = MODIFY_VALUE then
    match target, d.newValue with
    | some _, some (.str nv) => (.ok true, mapNodeAt root d.route (setValueL nv))
    | _, _ => (.ok false, root)
  else if d.action = MODIFY_CHECKED then
    match target, d.newValue with
    | some _, some (.boolV b) => (.ok true, mapNodeAt root d.route (setCheckedL b))
    | _, _ => (.ok false, root)
  else if d.action = MODIFY_SELECTED then
    match target, d.newValue with
    | some _, some (.boolV b) => (.ok true, mapNodeAt root d.route (setSelectedL b))
    | _, _ => (.ok false, root)
  else (.ok false, root)

/-- The body of `applyDiff`'s `try` block after the `preDiffApply` hook:
resolve the target (required except for `addElement`), run the switch, then
run the `postDiffApply` hook on success. -/
def applyDiffCoreF (fuel : Nat) (root : LiveTree) (d : DiffResult)
    (options : DiffOptions) : Except String Bool × LiveTree :=
  let target := getNodeByRoute root d.route
  if target.isNone ∧ d.action ≠ ADD_ELEMENT then (.ok false, root)
  else
    match applySwitchF fuel root d options target with
    | (.ok true, t2) =>
      match options.postDiffApply with
      | some hook =>
        match hook d t2 with
        | .error e => (.error e, t2)
        | .ok _ => (.ok true, t2)
      | none => (.ok true, t2)
    | other => other

/-- The whole `try` block of `applyDiff` of cache.ts, `preDiffApply` hook
included (a truthy skip treats the operation as already handled).  A `.error`
outcome is an exception about to hit the `catch`, paired with the tree state
at the moment it was thrown. -/
def applyDiffBodyF (fuel : Nat) (root : LiveTree) (d : DiffResult)
    (options : DiffOptions) : Except String Bool × LiveTree :=
  match options.preDiffApply with
  | some hook =>
    match hook d root with
    | .error e => (.error e, root)
    | .ok skip =>
      if skip = some true then (.ok true, root)
      else applyDiffCoreF fuel root d options
  | none => applyDiffCoreF fuel root d options

/-- `applyDiff` of cache.ts: the `try`/`catch` wrapper.  Every exception the
body throws — hook-thrown ones included — is caught and converted into a
`false` return (with a `console.error` diagnostic when `debug` is set, a side
effect outside the model); the tree keeps whatever mutations happened before
the throw. -/
def applyDiffF (fuel : Nat) (root : LiveTree) (d : DiffResult)
    (options : DiffOptions) : Bool × LiveTree :=
  match applyDiffBodyF fuel root d options with
  | (.ok b, t) => (b, t)
  | (.error _, t) => (false, t)

/-- `apply` of cache.ts: run the operations strictly in list order, stopping
with `false` at the first failed `applyDiff` and keeping all earlier
mutations; `true` only when every operation succeeded. -/
def applyF (fuel : Nat) : LiveTree → List DiffResult → DiffOptions → Bool × LiveTree
  | root, [], _ => (true, root)
  | root, d :: ds, options =>
    let r := applyDiffF fuel root d options
    if r.1 then applyF fuel r.2 ds options else (false, r.2)

/-- `invertDiff` of cache.ts: `{...diff}` with the action/payload overrides of
the switch (note that `removeElement → addElement` sets `index` from the last
route entry but keeps `route` itself unchanged, and `addElement →
removeElement` changes nothing but the action). -/
def invertDiff (diff : DiffResult) : DiffResult :=
  if diff.action = ADD_ELEMENT then { diff with action := REMOVE_ELEMENT }
  else if diff.action = REMOVE_ELEMENT then
    { diff with action := ADD_ELEMENT, index := diff.route.getLast? }
  else if diff.action = RELOCATE_ELEMENT then
    { diff with fromRoute := diff.toRoute, toRoute := diff.fromRoute }
  else if diff.action = ADD_ATTRIBUTE then { diff with action := REMOVE_ATTRIBUTE }
  else if diff.action = REMOVE_ATTRIBUTE then { diff with action := ADD_ATTRIBUTE }
  else if diff.action = MODIFY_TEXT ∨ diff.action = REPLACE_ELEMENT ∨
      diff.action = MODIFY_ATTRIBUTE ∨ diff.action = MODIFY_VALUE ∨
      diff.action = MODIFY_CHECKED ∨ diff.action = MODIFY_SELECTED then
    { diff with oldValue := diff.newValue, newValue := diff.oldValue }
  else diff

/-- `undo` of cache.ts: invert each operation and replay the list in reverse
order through `apply`. -/
def undoF (fuel : Nat) (root : LiveTree) (diffs : List DiffResult)
    (options : DiffOptions) : Bool × LiveTree :=
  applyF fuel root ((diffs.reverse).map invertDiff) options

/-! ## Concrete trees used by the theorems below -/

/-- Build an element `VirtualNode` the way a caller (or the markup parser after
normalization) would: uppercase tag, attribute map, children, no skip flags. -/
def mkElemV (name : String) (attrs : List (String × String))
    (cs : List VirtualNode) : VirtualNode :=
  .mk NT_ELEMENT name [] none (some attrs) none none none (some cs) false false

/-- Build a text `VirtualNode`. -/
def mkTextV (s : String) : VirtualNode :=
  .mk NT_TEXT "#text" [] (some s) none none none none none false false

/-- Build a comment `VirtualNode`. -/
def mkCommentV (s : Option String) : VirtualNode :=
  .mk NT_COMMENT "#comment" [] s none none none none none false false

/-- A keyed, otherwise empty `DIV` virtual node. -/
def keyDiv (k : String) : VirtualNode := mkElemV "DIV" [("data-key", k)] []

/-- The live materialization of `keyDiv`. -/
def keyDivL (k : String) : LiveTree :=
  .elem "DIV" [("data-key", k)] none none none []

/-- Old child list `[key a, key b, key c]` under a `DIV` container. -/
def oldABC : VirtualNode := mkElemV "DIV" [] [keyDiv "a", keyDiv "b", keyDiv "c"]

/-- The pure reorder `[key c, key a, key b]` (the key-stability fixture). -/
def newCAB : VirtualNode := mkElemV "DIV" [] [keyDiv "c", keyDiv "a", keyDiv "b"]

/-- The backward rotation `[key b, key c, key a]`. -/
def newBCA : VirtualNode := mkElemV "DIV" [] [keyDiv "b", keyDiv "c", keyDiv "a"]

/-- Live materialization of `oldABC`. -/
def matOldABC : LiveTree :=
  .elem "DIV" [] none none none [keyDivL "a", keyDivL "b", keyDivL "c"]

/-- Live materialization of `newCAB`. -/
def matNewCAB : LiveTree :=
  .elem "DIV" [] none none none [keyDivL "c", keyDivL "a", keyDivL "b"]

/-- Live materialization of `newBCA`. -/
def matNewBCA : LiveTree :=
  .elem "DIV" [] none none none [keyDivL "b", keyDivL "c", keyDivL "a"]

/-- An empty `DIV` virtual tree. -/
def divEmpty : VirtualNode := mkElemV "DIV" [] []

/-- A `DIV` with one `SPAN` child. -/
def divSpan : VirtualNode := mkElemV "DIV" [] [mkElemV "SPAN" [] []]

/-- Live materialization of `divEmpty`. -/
def matDivEmpty : LiveTree := .elem "DIV" [] none none none []

/-- Live materialization of `divSpan`. -/
def matDivSpan : LiveTree :=
  .elem "DIV" [] none none none [.elem "SPAN" [] none none none []]

/-- A live document fragment with two top-level element siblings (what markup
with two roots or a multi-child fragment conversion produces). -/
def fragLive : LiveTree :=
  .frag [.elem "DIV" [] none none none [], .elem "SPAN" [] none none none []]

/-- `<div><!--a--></div>` as a virtual tree. -/
def divCommentA : VirtualNode := mkElemV "DIV" [] [mkCommentV (some "a")]

/-- `<div><!--b--></div>` as a virtual tree. -/
def divCommentB : VirtualNode := mkElemV "DIV" [] [mkCommentV (some "b")]

/-- The action names of an edit script. -/
def actionsOf (ds : List DiffResult) : List String := ds.map (fun d => d.action)

/-- The `data-key` attributes of a live node's children, in order (an
observation the claimed observational equality must preserve). -/
def childKeysL (t : LiveTree) : List String :=
  (t.childNodes).map (fun c => (attrLookup c.attrsL "data-key").getD "?")

/-! ## C1 -/

/-- C1: evaluating the code at the failing input.  For the keyed backward
rotation `[a,b,c] → [b,c,a]`, `diff` produces three `relocateElement`
operations, `apply` on the materialization of the old tree returns `true`,
but the resulting child order is `[a,c,b]`, not the `[b,c,a]` of the
materialized new tree — so `apply(materialize(A), diff(A,B))` is not
observationally equal to `materialize(B)`. -/
theorem C1_apply_correctness_fails_on_keyed_rotation :
    objToNodeF 20 defaultOptions oldABC = .ok (some matOldABC)
    ∧ objToNodeF 20 defaultOptions newBCA = .ok (some matNewBCA)
    ∧ actionsOf (diffVV 20 oldABC newBCA defaultOptions) =
        [RELOCATE_ELEMENT, RELOCATE_ELEMENT, RELOCATE_ELEMENT]
    ∧ (applyF 20 matOldABC (diffVV 20 oldABC newBCA defaultOptions) defaultOptions).1 = true
    ∧ childKeysL (applyF 20 matOldABC (diffVV 20 oldABC newBCA defaultOptions) defaultOptions).2 =
        ["a", "c", "b"]
    ∧ childKeysL matNewBCA = ["b", "c", "a"]
    ∧ (applyF 20 matOldABC (diffVV 20 oldABC newBCA defaultOptions) defaultOptions).2 ≠ matNewBCA := by
  refine ⟨rfl, rfl, rfl, rfl, rfl, rfl, ?_⟩
  intro h
  exact absurd (congrArg childKeysL h) (by decide)

/-! ## C2 -/

/-- C2: evaluating the code at the failing input.  For `A = <div></div>` and
`B = <div><span></span></div>` the script is one `addElement`; applying it to
`materialize(A)` yields `materialize(B)`, but `undo` on that result with the
same script returns `true` while leaving the tree at `materialize(B)`: the
inverted `addElement` becomes a `removeElement` whose route is the *parent*
route `[]`, and removing the detached root is a silent no-op.  So undo does
not restore a tree observationally equal to `materialize(A)`. -/
theorem C2_undo_correctness_fails_after_addElement :
    actionsOf (diffVV 20 divEmpty divSpan defaultOptions) = [ADD_ELEMENT]
    ∧ objToNodeF 20 defaultOptions divEmpty = .ok (some matDivEmpty)
    ∧ objToNodeF 20 defaultOptions divSpan = .ok (some matDivSpan)
    ∧ applyF 20 matDivEmpty (diffVV 20 divEmpty divSpan defaultOptions) defaultOptions =
        (true, matDivSpan)
    ∧ undoF 20 matDivSpan (diffVV 20 divEmpty divSpan defaultOptions) defaultOptions =
        (true, matDivSpan)
    ∧ matDivSpan ≠ matDivEmpty := by
  refine ⟨rfl, rfl, rfl, rfl, rfl, ?_⟩
  intro h
  exact absurd (congrArg (fun t => (LiveTree.childNodes t).length) h) (by decide)

/-! ## C3 -/

/-- C3: evaluating the code at the failing input.  Diffing the same live
two-root fragment against itself (each side independently converted by
`nodeToObj`, as `diff` does for live inputs) yields one `replaceElement`
operation instead of the empty script: `elementsMatch` has no case for
document fragments and returns `false`, so `diffNode` replaces the whole
fragment.  For a single-rooted tree the self-diff is empty, as the claim
states. -/
theorem C3_fragment_self_diff_is_not_empty :
    actionsOf (diffLL 20 fragLive fragLive defaultOptions) = [REPLACE_ELEMENT]
    ∧ diffLL 20 fragLive fragLive defaultOptions ≠ []
    ∧ diffLL 20 (.elem "DIV" [("id", "x")] none none none [.textN "hello"])
        (.elem "DIV" [("id", "x")] none none none [.textN "hello"]) defaultOptions = [] := by
  refine ⟨rfl, ?_, rfl⟩
  intro h
  exact absurd (congrArg List.length h) (by decide)

/-! ## C4 -/

/-- C4 counterexample: a comment whose data differs, sitting as the only child
of an element, produces a `removeElement`/`addElement` pair — two diff
entries — so comment content changes are not invisible to the diff as the
claim states. -/
theorem C4_comment_child_change_produces_diffs :
    actionsOf (diffVV 20 divCommentA divCommentB defaultOptions) =
      [REMOVE_ELEMENT, ADD_ELEMENT]
    ∧ diffVV 20 divCommentA divCommentB defaultOptions ≠ [] := by
  refine ⟨rfl, ?_⟩
  intro h
  exact absurd (congrArg List.length h) (by decide)

/-! ## C7 -/

/-- C7: for the keyed pure reorder `[a,b,c] → [c,a,b]` the script is exactly
three `relocateElement` operations (no add, remove, or other change
operations), and applying it to the materialized old tree succeeds and yields
the materialized new tree, whose children are exactly the three original
child nodes in the new order — no node was created. -/
theorem C7_key_stability_pure_reorder :
    actionsOf (diffVV 20 oldABC newCAB defaultOptions) =
      [RELOCATE_ELEMENT, RELOCATE_ELEMENT, RELOCATE_ELEMENT]
    ∧ objToNodeF 20 defaultOptions oldABC = .ok (some matOldABC)
    ∧ objToNodeF 20 defaultOptions newCAB = .ok (some matNewCAB)
    ∧ applyF 20 matOldABC (diffVV 20 oldABC newCAB defaultOptions) defaultOptions =
        (true, matNewCAB)
    ∧ matOldABC.childNodes = [keyDivL "a", keyDivL "b", keyDivL "c"]
    ∧ matNewCAB.childNodes = [keyDivL "c", keyDivL "a", keyDivL "b"] :=
  ⟨rfl, rfl, rfl, rfl, rfl, rfl⟩

/-! ## C5 -/

/-- A `preDiffApply` hook that throws unconditionally. -/
def throwingPreHook : PreDiffApplyFn := fun _ _ => .error "hook exception"

/-- Options configuring the throwing pre-hook. -/
def optsThrowingPre : DiffOptions := { preDiffApply := some throwingPreHook }

/-- A simple `modifyTextElement` operation targeting the root. -/
def textOpXY : DiffResult :=
  { action := MODIFY_TEXT, route := [],
    oldValue := some (.str "x"), newValue := some (.str "y") }

/-- A text root to apply against. -/
def textRootX : LiveTree := .textN "x"

/-- C5 counterexample: with a configured `preDiffApply` hook that throws, the
exception is raised inside `applyDiff`'s `try` block (`applyDiffBodyF` ends in
the error channel) but the `catch` converts it into a `false` return — the
top-level `apply` caller sees `false`, not a propagated exception, refuting
the claim that hook-thrown errors escape the guard. -/
theorem C5_hook_exception_is_caught_not_propagated :
    applyDiffBodyF 5 textRootX textOpXY optsThrowingPre =
      (.error "hook exception", textRootX)
    ∧ applyDiffF 5 textRootX textOpXY optsThrowingPre = (false, textRootX)
    ∧ applyF 5 textRootX [textOpXY] optsThrowingPre = (false, textRootX)
    ∧ applyDiffF 5 textRootX textOpXY defaultOptions = (true, .textN "y") :=
  ⟨rfl, rfl, rfl, rfl⟩

/-- C5 amended: an exception thrown by a configured `preDiffApply` hook is
caught by the same guard that protects the default per-operation action and
converted into a `false` return (the tree untouched, no default action run,
nothing propagates); the default action's own exceptions are likewise caught
and become `false`. -/
theorem C5_amended_guard_catches_hook_exceptions (fuel : Nat) (root : LiveTree)
    (d : DiffResult) (options : DiffOptions) (h : PreDiffApplyFn) (e : String)
    (hpre : options.preDiffApply = some h) (hthrow : h d root = .error e) :
    applyDiffF fuel root d options = (false, root)
    ∧ applyF fuel root [d] options = (false, root) := by
  have hbody : applyDiffBodyF fuel root d options = (.error e, root) := by
    unfold applyDiffBodyF
    rw [hpre]
    simp only [hthrow]
  have hone : applyDiffF fuel root d options = (false, root) := by
    unfold applyDiffF
    rw [hbody]
  have h2 : applyF fuel root [d] options = (false, root) := by
    simp only [applyF, hone]
    rfl
  exact ⟨hone, h2⟩

/-- Witness for the amended C5 theorem at the concrete throwing hook. -/
theorem C5_amended_witness :
    applyDiffF 5 textRootX textOpXY optsThrowingPre = (false, textRootX)
    ∧ applyF 5 textRootX [textOpXY] optsThrowingPre = (false, textRootX) :=
  C5_amended_guard_catches_hook_exceptions 5 textRootX textOpXY optsThrowingPre
    throwingPreHook "hook exception" rfl rfl

/-! ## C6 -/

/-- The old child `P`: matches `n0` exactly. -/
def pNode : VirtualNode := mkElemV "DIV" [("a", "1"), ("b", "1"), ("c", "1")] []

/-- The old child `Q`: similarity `3/4` to `n0` and `3/5` to `n1`. -/
def qNode : VirtualNode :=
  mkElemV "DIV" [("a", "1"), ("b", "1"), ("c", "1"), ("d", "1")] []

/-- The new child `n0`, consumed by `P` on the positional fast path. -/
def n0 : VirtualNode := mkElemV "DIV" [("a", "1"), ("b", "1"), ("c", "1")] []

/-- The new child `n1`, unconsumed, with similarity `3/5 > 0.5` to `Q`. -/
def n1 : VirtualNode :=
  mkElemV "DIV" [("a", "1"), ("b", "1"), ("c", "1"), ("e", "1")] []

/-- C6 counterexample: `findBestMatch` scans *all* candidates, consumed ones
included, so for old child `Q` it returns the already-consumed `n0` (score
`3/4`), the caller discards the match, and `Q` ends up unmatched
(remove/add emitted) — even though the unconsumed candidate `n1` has
similarity `3/5 > 0.5`.  This refutes the claim that an old child is left
unmatched only when no unconsumed candidate has a key match or similarity
above `0.5`. -/
theorem C6_unmatched_despite_unconsumed_candidate :
    calculateSimilarity qNode n0 defaultOptions = mkRat 3 4
    ∧ calculateSimilarity qNode n1 defaultOptions = mkRat 3 5
    ∧ ratGt (mkRat 3 5) fiftyPercent = true
    ∧ findBestMatch qNode [n0, n1] 0 defaultOptions =
        some { index := 0, score := mkRat 3 4, keyMatch := false }
    ∧ computeMatches [pNode, qNode] [n0, n1] defaultOptions =
        ([{ oldIndex := 0, newIndex := 0, score := 1 }], [0], [0])
    ∧ actionsOf (diffChildrenF 20 (some [pNode, qNode]) (some [n0, n1]) []
        defaultOptions 0).1 = [REMOVE_ELEMENT, ADD_ELEMENT] :=
  ⟨rfl, rfl, rfl, rfl, rfl, rfl⟩

/-! ## C10 -/

/-- A skip predicate answering the explicit `full` skip mode for every node. -/
def alwaysFullPred : SkipPredicateFn := fun _ _ => .asMode SKIP_FULL_MODE

/-- Options configuring `alwaysFullPred`. -/
def optsFullPred : DiffOptions := { skipPredicate := some alwaysFullPred }

/-- `nodeToObj` of cache.ts applied to a *pre-built `VirtualNode`*: `diff`'s
input dispatch (`'nodeType' in elementA && typeof elementA.nodeType ===
'number'`) is satisfied by every well-formed `VirtualNode`, so a
caller-supplied virtual tree is rebuilt through `nodeToObj` rather than used
in place (the as-`VirtualNode` passthrough branch is unreachable for it).
Reading a `VirtualNode` through the `Node` interface: `data` works for
text/comment (`|| ''` for a missing or empty payload); in the element branch
the attribute loop `for (i = 0; i < element.attributes.length; i++)` never
runs because a plain attribute `Record` has no `.length`, so the clone's
attribute map is always empty; `value` (tag-gated on the normalized name),
`checked` and `selected` are copied when defined and value-diffing is on;
`childNodes` is an array, so its walk works normally; and the
`innerDone`/`skipFull` flags are never copied.  As in `nodeToObjF`, each
child's `route` ends up `[indexInParent]`. -/
def nodeToObjV : Nat → DiffOptions → VirtualNode → VirtualNode
  | 0, _, _ => defaultVNode
  | f + 1, options, v =>
    if v.nodeType = NT_TEXT then
      .mk NT_TEXT "#text" [] (some ((v.dataV).getD "")) none none none none
        none false false
    else if v.nodeType = NT_COMMENT then
      .mk NT_COMMENT "#comment" [] (some ((v.dataV).getD "")) none none none
        none none false false
    else if v.nodeType = NT_ELEMENT then
      let objName := normalizeNodeName v.nodeName options.caseSensitive
      let valueField :=
        if options.valueDiffing ∧ (v.valueV).isSome ∧
            (["INPUT", "TEXTAREA", "SELECT"].contains objName) then v.valueV
        else none
      let checkedField := if options.valueDiffing then v.checkedV else none
      let selectedField := if options.valueDiffing then v.selectedV else none
      let childField :=
        if ¬ isVoidElement objName ∧ (v.childNodes).isSome then
          some (((v.childNodes).getD []).enum.map
            (fun p => (nodeToObjV f options p.2).setRoute [p.1]))
        else none
      .mk NT_ELEMENT objName [] none (some []) valueField checkedField
        selectedField childField false false
    else if v.nodeType = NT_FRAGMENT then
      .mk NT_FRAGMENT "#document-fragment" [] none none none none none
        (some (((v.childNodes).getD []).enum.map
          (fun p => (nodeToObjV f options p.2).setRoute [p.1]))) false false
    else .mk v.nodeType "" [] none none none none none none false false

/-- `shouldSkipElement` of cache.ts when the accompanying `domNode` is the
caller's pre-built `VirtualNode` (the raw value `diff` received): such an
object has no browser `matches`, so the selector check takes the virtual
fallback on the rebuilt node, and the predicate receives the caller's node —
or the rebuilt node itself when no dom counterpart exists, the source's
`(domNode as Node) || (node as unknown as Node)` fallback. -/
def shouldSkipElementV (node : VirtualNode) (domNode : Option VirtualNode)
    (options : DiffOptions) : Option String :=
  if node.nodeType ≠ NT_ELEMENT then none
  else
    let selectorHit :=
      match options.skipSelector with
      | some sel => matchesSelector node sel
      | none => false
    if selectorHit then some (skipModeOrChildren options)
    else
      match options.skipPredicate with
      | some p =>
        let ref := match domNode with
          | some d => DomRef.virt d
          | none => DomRef.virt node
        match p ref node with
        | .asBool true => some (skipModeOrChildren options)
        | .asBool false => none
        | .asMode m =>
          if m = SKIP_CHILDREN_MODE ∨ m = SKIP_FULL_MODE then some m else none
      | none => none

/-- The `applySkipLogic` walk when the dom side is the caller's pre-built
`VirtualNode`: the walk annotates the `nodeToObj` rebuild, while the caller's
node is only ever read, as the predicate's `domNode`. -/
def applySkipLogicVF : Nat → DiffOptions → VirtualNode → Option VirtualNode →
    VirtualNode
  | 0, _, node, _ => node
  | f + 1, options, node, domNode =>
    if node.nodeType = NT_ELEMENT then
      let node :=
        match shouldSkipElementV node domNode options with
        | some skipMode => applySkipMode node skipMode
        | none => node
      if node.childNodes.isSome ∧ ¬ node.skipFull then
        let cs := node.childNodes.getD []
        node.setChildNodes (some (cs.enum.map
          (fun p => applySkipLogicVF f options p.2
            (((domNode.bind VirtualNode.childNodes).getD []).get? p.1))))
      else node
    else if node.nodeType = NT_COMMENT then applySkipMode node SKIP_FULL_MODE
    else node

/-- `diff` of cache.ts called with two pre-built `VirtualNode` arguments.
Both inputs satisfy the numeric-`nodeType` dispatch test, so both are rebuilt
through `nodeToObj`, and the originals accompany the skip walk as its
`domNode`s (the same test again); the skip flags land on the rebuilt trees,
returned as the second and third components — the caller's nodes are never
written. -/
def diffMainVN (fuel : Nat) (vA vB : VirtualNode) (options : DiffOptions) :
    List DiffResult × VirtualNode × VirtualNode :=
  let objA := nodeToObjV fuel options vA
  let objB := nodeToObjV fuel options vB
  let a := applySkipLogicVF fuel options objA (some vA)
  let b := applySkipLogicVF fuel options objB (some vB)
  if a.skipFull ∧ b.skipFull then ([], a, b)
  else
    let diffs := (diffNodeF fuel a b [] options 0).1
    let diffs :=
      match options.filterOuterDiff with
      | some h => (h a b diffs).getD diffs
      | none => diffs
    (diffs, a, b)

/-- The edit script of `diff` on two pre-built `VirtualNode` arguments. -/
def diffVN (fuel : Nat) (vA vB : VirtualNode) (options : DiffOptions) :
    List DiffResult :=
  (diffMainVN fuel vA vB options).1

/-- `<div data-key="k">x</div>` as a caller-owned virtual tree. -/
def divKeyX : VirtualNode := mkElemV "DIV" [("data-key", "k")] [mkTextV "x"]

/-- `<div data-key="k">y</div>` as a caller-owned virtual tree. -/
def divKeyY : VirtualNode := mkElemV "DIV" [("data-key", "k")] [mkTextV "y"]

/-- C10 counterexample: `diff` does not set skip flags on a caller-supplied
`VirtualNode`.  The numeric-`nodeType` dispatch rebuilds the supplied node
through `nodeToObj` — a clone whose attribute map is empty (the `.length`
quirk) and which never copies skip flags; the `full`-skip walk flags that
clone, a value different from the caller's node with its own flag set; the
caller's node stays unflagged; and a later diff reusing the same node — even
one carrying a pre-set `skipFull` — produces the identical non-empty script,
so no flag persists or can affect a subsequent call. -/
theorem C10_flags_do_not_persist_on_callers_tree :
    (nodeToObjV 20 defaultOptions (keyDiv "a")).attributes = some []
    ∧ (keyDiv "a").attributes = some [("data-key", "a")]
    ∧ nodeToObjV 20 defaultOptions (keyDiv "a") ≠ keyDiv "a"
    ∧ (diffMainVN 20 divKeyX divKeyY optsFullPred).1 = []
    ∧ (diffMainVN 20 divKeyX divKeyY optsFullPred).2.1 =
        (nodeToObjV 20 optsFullPred divKeyX).setSkipFull
    ∧ (diffMainVN 20 divKeyX divKeyY optsFullPred).2.1 ≠ divKeyX.setSkipFull
    ∧ divKeyX.skipFull = false
    ∧ nodeToObjV 20 defaultOptions divKeyX.setSkipFull =
        nodeToObjV 20 defaultOptions divKeyX
    ∧ diffVN 20 divKeyX.setSkipFull divKeyY defaultOptions =
        diffVN 20 divKeyX divKeyY defaultOptions
    ∧ actionsOf (diffVN 20 divKeyX divKeyY defaultOptions) =
        [REMOVE_ELEMENT, ADD_ELEMENT] := by
  refine ⟨rfl, rfl, ?_, rfl, rfl, ?_, rfl, rfl, rfl, rfl⟩
  · intro h
    exact absurd (congrArg VirtualNode.attributes h) (by decide)
  · intro h
    exact absurd (congrArg VirtualNode.attributes h) (by decide)

/-- C10 amended: the conversion `diff` applies to a pre-built `VirtualNode`
argument is flag-blind and flag-free — rebuilding a node with `skipFull` or
`innerDone` set yields exactly the clone of the unflagged node, the clone
itself never carries either flag, and an element clone's attribute map is
always empty (the attribute `Record` has no `.length` for `nodeToObj`'s
copy loop).  The skip walk therefore writes only to this internal clone:
nothing `diff` does persists on, or is read back from, the caller's tree,
which enters the call only as the skip predicate's read-only `domNode`. -/
theorem C10_amended_diff_clones_and_ignores_flags (f : Nat)
    (options : DiffOptions) (v : VirtualNode) :
    nodeToObjV (f + 1) options v.setSkipFull = nodeToObjV (f + 1) options v
    ∧ nodeToObjV (f + 1) options v.setInnerDone = nodeToObjV (f + 1) options v
    ∧ (nodeToObjV (f + 1) options v).skipFull = false
    ∧ (nodeToObjV (f + 1) options v).innerDone = false
    ∧ (v.nodeType = NT_ELEMENT →
        (nodeToObjV (f + 1) options v).attributes = some []) := by
  obtain ⟨t, n, r, d, a, val, c, s, ch, i, sf⟩ := v
  refine ⟨rfl, rfl, ?_, ?_, ?_⟩
  · unfold nodeToObjV
    repeat' split
    all_goals rfl
  · unfold nodeToObjV
    repeat' split
    all_goals rfl
  · intro he
    simp only [VirtualNode.nodeType] at he
    subst he
    rfl

/-- Witness for the amended C10 theorem at a concrete attributed element. -/
theorem C10_amended_witness :
    nodeToObjV 3 defaultOptions (keyDiv "a").setSkipFull =
      nodeToObjV 3 defaultOptions (keyDiv "a")
    ∧ (nodeToObjV 3 defaultOptions (keyDiv "a")).attributes = some [] :=
  ⟨(C10_amended_diff_clones_and_ignores_flags 2 defaultOptions (keyDiv "a")).1,
    (C10_amended_diff_clones_and_ignores_flags 2 defaultOptions
      (keyDiv "a")).2.2.2.2 rfl⟩

/-! ## C4 amended -/

/-- Setting `skipFull` makes the flag read back `true`. -/
theorem skipFull_setSkipFull (v : VirtualNode) : (v.setSkipFull).skipFull = true := by
  cases v
  rfl

/-- The skip walk on a comment node just marks it `skipFull`. -/
theorem applySkipLogicF_comment (f : Nat) (options : DiffOptions) (v : VirtualNode)
    (dom : Option LiveTree) (h : v.nodeType = NT_COMMENT) :
    applySkipLogicF (f + 1) options v dom = applySkipMode v SKIP_FULL_MODE := by
  unfold applySkipLogicF
  rw [h, if_neg (by decide), if_pos rfl]

/-- `applySkipMode` with the `full` mode sets `skipFull`. -/
theorem applySkipMode_full_skipFull (v : VirtualNode) :
    (applySkipMode v SKIP_FULL_MODE).skipFull = true := by
  unfold applySkipMode
  rw [if_neg (by decide), if_pos rfl]
  exact skipFull_setSkipFull v

/-- C4 amended: comment nodes are marked `full`-skip by the skip walk, so
diffing two comment roots — whatever their data and whatever the options —
yields the empty script (both roots are `skipFull` and `diff` short-circuits
before `diffNode` runs).  The counterexample theorem shows the part of the
claim that fails: a changed comment that sits as a *child* of an element is
handled by the remove/add passes instead, producing a
`removeElement`/`addElement` pair. -/
theorem C4_amended_comment_roots_diff_empty (f : Nat) (a b : VirtualNode)
    (options : DiffOptions) (ha : a.nodeType = NT_COMMENT)
    (hb : b.nodeType = NT_COMMENT) :
    diffVV (f + 1) a b options = [] := by
  unfold diffVV diffMainV
  rw [applySkipLogicF_comment f options a none ha,
    applySkipLogicF_comment f options b none hb]
  rw [if_pos ⟨applySkipMode_full_skipFull a, applySkipMode_full_skipFull b⟩]

/-- Witness for the amended C4 theorem at concrete comment nodes with
different data. -/
theorem C4_amended_witness :
    diffVV 1 (mkCommentV (some "a")) (mkCommentV (some "b")) defaultOptions = [] :=
  C4_amended_comment_roots_diff_empty 0 (mkCommentV (some "a"))
    (mkCommentV (some "b")) defaultOptions rfl rfl

/-! ## C9 -/

/-- A placeholder operation for out-of-range list reads in specifications. -/
def dummyDiff : DiffResult := { action := "", route := [] }

/-- The live tree reached after sequentially running `applyDiff` over the
first `k` operations (each operation's tree effect is kept whether or not it
reported success, matching the in-place mutation of the source — this is the
no-rollback semantics). -/
def applyStatesF (fuel : Nat) (root : LiveTree) (ds : List DiffResult)
    (options : DiffOptions) (k : Nat) : LiveTree :=
  (ds.take k).foldl (fun t d => (applyDiffF fuel t d options).2) root

/-- Whether the `k`-th operation reports success when run against the state
reached after the first `k` operations. -/
def applyOkAtF (fuel : Nat) (root : LiveTree) (ds : List DiffResult)
    (options : DiffOptions) (k : Nat) : Bool :=
  (applyDiffF fuel (applyStatesF fuel root ds options k) (ds.getD k dummyDiff)
    options).1

/-- C9: `apply` executes the operations strictly in list order: it returns
`true` exactly when every operation succeeds against the state produced by
its predecessors (final tree: the fold of all operations), and at the first
failing operation `k` it returns `false` with the tree holding the effects of
operations `0..k` — nothing later runs and nothing earlier is rolled back. -/
theorem C9_apply_in_order_aborts_without_rollback (fuel : Nat)
    (options : DiffOptions) :
    ∀ (ds : List DiffResult) (root : LiveTree),
    ((∀ k, k < ds.length → applyOkAtF fuel root ds options k = true) →
      applyF fuel root ds options =
        (true, applyStatesF fuel root ds options ds.length))
    ∧ (∀ k, k < ds.length →
        (∀ j, j < k → applyOkAtF fuel root ds options j = true) →
        applyOkAtF fuel root ds options k = false →
        applyF fuel root ds options =
          (false, applyStatesF fuel root ds options (k + 1))) := by
  intro ds
  induction ds with
  | nil =>
    intro root
    refine ⟨fun _ => rfl, fun k hk _ _ => absurd hk (by simp)⟩
  | cons d tl ih =>
    intro root
    have happ : applyF fuel root (d :: tl) options =
        (if (applyDiffF fuel root d options).1 then
          applyF fuel (applyDiffF fuel root d options).2 tl options
        else (false, (applyDiffF fuel root d options).2)) := rfl
    constructor
    · intro hall
      have h0 : (applyDiffF fuel root d options).1 = true :=
        hall 0 (Nat.succ_pos _)
      rw [happ, if_pos h0]
      exact (ih (applyDiffF fuel root d options).2).1
        (fun k hk => hall (k + 1) (Nat.succ_lt_succ hk))
    · intro k hk hprev hfail
      match k with
      | 0 =>
        have h0 : (applyDiffF fuel root d options).1 = false := hfail
        rw [happ, if_neg (by simp [h0])]
        rfl
      | k + 1 =>
        have h0 : (applyDiffF fuel root d options).1 = true :=
          hprev 0 (Nat.succ_pos _)
        rw [happ, if_pos h0]
        exact (ih (applyDiffF fuel root d options).2).2 k
          (Nat.lt_of_succ_lt_succ hk)
          (fun j hj => hprev (j + 1) (Nat.succ_lt_succ hj)) hfail

/-- A three-operation script whose middle operation targets a route that does
not resolve. -/
def demoOps : List DiffResult :=
  [{ action := ADD_ATTRIBUTE, route := [], name := some "x", value := some "1" },
   { action := MODIFY_TEXT, route := [5], newValue := some (.str "y") },
   { action := ADD_ATTRIBUTE, route := [], name := some "y", value := some "2" }]

/-- Witness for C9: on `demoOps` the first operation succeeds, the second
fails (unresolvable route), and `apply` returns `false` with exactly the
first two operations' effects in place. -/
theorem C9_witness :
    applyOkAtF 5 matDivEmpty demoOps defaultOptions 0 = true
    ∧ applyOkAtF 5 matDivEmpty demoOps defaultOptions 1 = false
    ∧ applyF 5 matDivEmpty demoOps defaultOptions =
        (false, applyStatesF 5 matDivEmpty demoOps defaultOptions 2)
    ∧ applyStatesF 5 matDivEmpty demoOps defaultOptions 2 =
        .elem "DIV" [("x", "1")] none none none [] := by
  refine ⟨rfl, rfl, ?_, rfl⟩
  exact (C9_apply_in_order_aborts_without_rollback 5 defaultOptions demoOps
    matDivEmpty).2 1 (by decide)
    (fun j hj => by
      have hj0 : j = 0 := by omega
      subst hj0
      rfl) rfl

/-! ## C6 amended -/

/-- The source loop's best-score update: keep the running best unless the new
score is a strict improvement. -/
def ratMax (a b : Rat) : Rat := if ratGt b a then b else a

/-- The running maximum similarity over an indexed candidate scan, starting
from `bs`. -/
def simFold (oldChild : VirtualNode) (options : DiffOptions) (bs : Rat)
    (l : List (Nat × VirtualNode)) : Rat :=
  l.foldl (fun acc p => ratMax acc (calculateSimilarity oldChild p.2 options)) bs

/-- The maximal similarity of the old child against all candidates. -/
def maxSimilarity (oldChild : VirtualNode) (cands : List VirtualNode)
    (options : DiffOptions) : Rat :=
  (cands.map (fun c => calculateSimilarity oldChild c options)).foldl ratMax 0

/-- What `findBestMatch` must return when the old child has no key: `none`
exactly when the maximum similarity `val` over all scanned candidates fails
the `0.5` test, and otherwise a non-key match carrying that maximum, above
`0.5`, achieved by the candidate the returned index points at. -/
def FBMSpec (oldChild : VirtualNode) (options : DiffOptions)
    (P0 : Nat → VirtualNode → Prop) (val : Rat) : Option BestMatch → Prop
  | none => ratGt val fiftyPercent = false
  | some r =>
    r.keyMatch = false ∧ r.score = val ∧ ratGt r.score fiftyPercent = true ∧
      ∃ c, P0 r.index c ∧ calculateSimilarity oldChild c options = r.score

/-- Loop invariant of the keyless `findBestMatch` scan: from a state whose
best-so-far is either the initial `(none, 0)` or a genuine candidate score,
the scan ends in a state described by `FBMSpec` with the running maximum over
the remaining candidates. -/
theorem findBestMatchGo_none_key_spec (oldChild : VirtualNode)
    (options : DiffOptions) (P0 : Nat → VirtualNode → Prop) :
    ∀ (l : List (Nat × VirtualNode)) (bi : Option Nat) (bs : Rat),
      ((bs = 0 ∧ bi = none) ∨
        (∃ i c, bi = some i ∧ calculateSimilarity oldChild c options = bs ∧ P0 i c)) →
      (∀ p ∈ l, P0 p.1 p.2) →
      FBMSpec oldChild options P0 (simFold oldChild options bs l)
        (findBestMatchGo oldChild none options l bi bs) := by
  intro l
  induction l with
  | nil =>
    intro bi bs hinv _
    show FBMSpec oldChild options P0 bs
      (if ratGt bs fiftyPercent then
        bi.map (fun i => { index := i, score := bs, keyMatch := false })
      else none)
    by_cases hgt : ratGt bs fiftyPercent = true
    · rw [if_pos hgt]
      rcases hinv with ⟨hbs, _⟩ | ⟨i, c, hbi, hc, hp⟩
      · subst hbs
        exact absurd hgt (by decide)
      · subst hbi
        exact ⟨rfl, rfl, hgt, c, hp, hc⟩
    · rw [if_neg hgt]
      simpa using hgt
  | cons p rest ih =>
    intro bi bs hinv hl
    obtain ⟨i, c⟩ := p
    have hstep : findBestMatchGo oldChild none options ((i, c) :: rest) bi bs =
        (if ratGt (calculateSimilarity oldChild c options) bs then
          findBestMatchGo oldChild none options rest (some i)
            (calculateSimilarity oldChild c options)
        else findBestMatchGo oldChild none options rest bi bs) := rfl
    have hfold : simFold oldChild options bs ((i, c) :: rest) =
        simFold oldChild options
          (ratMax bs (calculateSimilarity oldChild c options)) rest := rfl
    rw [hstep, hfold]
    by_cases hgt : ratGt (calculateSimilarity oldChild c options) bs = true
    · rw [if_pos hgt]
      have hmax : ratMax bs (calculateSimilarity oldChild c options) =
          calculateSimilarity oldChild c options := by
        unfold ratMax
        rw [if_pos hgt]
      rw [hmax]
      exact ih (some i) (calculateSimilarity oldChild c options)
        (Or.inr ⟨i, c, rfl, rfl, hl (i, c) (List.mem_cons_self _ _)⟩)
        (fun q hq => hl q (List.mem_cons_of_mem _ hq))
    · rw [if_neg hgt]
      have hmax : ratMax bs (calculateSimilarity oldChild c options) = bs := by
        unfold ratMax
        rw [if_neg hgt]
      rw [hmax]
      exact ih bi bs hinv (fun q hq => hl q (List.mem_cons_of_mem _ hq))

/-- `simFold` over an enumeration is the plain maximum fold over the list. -/
theorem simFold_enumFrom (oldChild : VirtualNode) (options : DiffOptions)
    (cands : List VirtualNode) :
    ∀ (n : Nat) (bs : Rat),
      simFold oldChild options bs (cands.enumFrom n) =
      (cands.map (fun c => calculateSimilarity oldChild c options)).foldl ratMax bs := by
  induction cands with
  | nil => intro n bs; rfl
  | cons c tl ih =>
    intro n bs
    exact ih (n + 1) (ratMax bs (calculateSimilarity oldChild c options))

/-- C6 amended: when the old child carries no key, `findBestMatch` scans every
candidate from index 0 — consumed ones included — and returns `none` exactly
when the maximum similarity over *all* candidates is not above `0.5`, and
otherwise a non-key match whose score is that maximum, above `0.5`, achieved
at the returned candidate index; the caller separately discards a returned
match whose index is already consumed (the counterexample theorem exhibits an
old child left unmatched although an unconsumed candidate scores above 0.5). -/
theorem C6_amended_findBestMatch_scans_all_candidates (oldChild : VirtualNode)
    (cands : List VirtualNode) (options : DiffOptions)
    (hkey : getElementKey oldChild = none) :
    FBMSpec oldChild options (fun i c => cands[i]? = some c)
      (maxSimilarity oldChild cands options)
      (findBestMatch oldChild cands 0 options) := by
  have h1 : findBestMatch oldChild cands 0 options =
      findBestMatchGo oldChild none options cands.enum none 0 := by
    unfold findBestMatch
    rw [hkey, List.drop_zero]
  have h2 : maxSimilarity oldChild cands options =
      simFold oldChild options 0 cands.enum := by
    unfold maxSimilarity
    exact (simFold_enumFrom oldChild options cands 0 0).symm
  rw [h1, h2]
  exact findBestMatchGo_none_key_spec oldChild options _ cands.enum none 0
    (Or.inl ⟨rfl, rfl⟩)
    (fun p hp => by
      obtain ⟨i, c⟩ := p
      exact List.mk_mem_enum_iff_getElem?.mp hp)

/-- Witness for the amended C6 theorem at the concrete keyless candidates of
the counterexample. -/
theorem C6_amended_witness :
    getElementKey qNode = none
    ∧ FBMSpec qNode defaultOptions (fun i c => [n0, n1][i]? = some c)
        (maxSimilarity qNode [n0, n1] defaultOptions)
        (findBestMatch qNode [n0, n1] 0 defaultOptions) :=
  ⟨rfl, C6_amended_findBestMatch_scans_all_candidates qNode [n0, n1]
    defaultOptions rfl⟩

/-! ## C8 -/

/-- The removal section of `diffChildren` as the claim describes it: one
`removeElement` per unmatched old index, highest index first. -/
def removeSection (oldChildren : List VirtualNode) (route : List Nat)
    (oldUsed : List Nat) : List DiffResult :=
  (((List.range oldChildren.length).reverse).filter
    (fun i => ! oldUsed.contains i)).map
    (fun i => removeOp route i (oldChildren.getD i defaultVNode))

/-- The addition section: one `addElement` per unmatched new index, lowest
index first. -/
def addSection (newChildren : List VirtualNode) (route : List Nat)
    (newUsed : List Nat) : List DiffResult :=
  ((List.range newChildren.length).filter (fun i => ! newUsed.contains i)).map
    (fun i => addOp route i (newChildren.getD i defaultVNode))

/-- With `debug` off the removal pass never takes its early return: it appends
one `removeElement` per unmatched index, in the order of the given index
list. -/
theorem pass3Go_no_debug (oldChildren : List VirtualNode) (route : List Nat)
    (options : DiffOptions) (oldUsed : List Nat) (dc : Nat)
    (hdbg : options.debug = false) :
    ∀ (idxs : List Nat) (diffs : List DiffResult),
      pass3Go oldChildren route options oldUsed dc idxs diffs =
        (diffs ++ (idxs.filter (fun i => ! oldUsed.contains i)).map
          (fun i => removeOp route i (oldChildren.getD i defaultVNode)), false) := by
  intro idxs
  induction idxs with
  | nil => intro diffs; simp [pass3Go]
  | cons i rest ih =>
    intro diffs
    simp only [pass3Go]
    by_cases hc : oldUsed.contains i = true
    · have hmem : i ∈ oldUsed := by simpa using hc
      rw [if_pos hc, ih diffs]
      simp [List.filter_cons, hmem]
    · have hmem : i ∉ oldUsed := by simpa using hc
      rw [if_neg hc, if_neg (by simp [hdbg]), ih]
      simp [List.filter_cons, hmem, List.append_assoc]


/-- With `debug` off the addition pass never takes its early return either. -/
theorem pass4Go_no_debug (newChildren : List VirtualNode) (route : List Nat)
    (options : DiffOptions) (newUsed : List Nat) (dc : Nat)
    (hdbg : options.debug = false) :
    ∀ (idxs : List Nat) (diffs : List DiffResult),
      pass4Go newChildren route options newUsed dc idxs diffs =
        (diffs ++ (idxs.filter (fun i => ! newUsed.contains i)).map
          (fun i => addOp route i (newChildren.getD i defaultVNode)), false) := by
  intro idxs
  induction idxs with
  | nil => intro diffs; simp [pass4Go]
  | cons i rest ih =>
    intro diffs
    simp only [pass4Go]
    by_cases hc : newUsed.contains i = true
    · have hmem : i ∈ newUsed := by simpa using hc
      rw [if_pos hc, ih diffs]
      simp [List.filter_cons, hmem]
    · have hmem : i ∉ newUsed := by simpa using hc
      rw [if_neg hc, if_neg (by simp [hdbg]), ih]
      simp [List.filter_cons, hmem, List.append_assoc]

/-- Membership through the stable insertion. -/
theorem mem_insertByOldIndex (m b : MatchRec) (l : List MatchRec) :
    b ∈ insertByOldIndex m l ↔ b = m ∨ b ∈ l := by
  induction l with
  | nil => simp [insertByOldIndex]
  | cons x xs ih =>
    by_cases hc : x.oldIndex ≤ m.oldIndex
    · simp only [insertByOldIndex, if_pos hc, List.mem_cons, ih]
      tauto
    · simp only [insertByOldIndex, if_neg hc, List.mem_cons]

/-- The stable insertion preserves sortedness by `oldIndex`. -/
theorem insertByOldIndex_pairwise (m : MatchRec) (l : List MatchRec)
    (h : l.Pairwise (fun a b => a.oldIndex ≤ b.oldIndex)) :
    (insertByOldIndex m l).Pairwise (fun a b => a.oldIndex ≤ b.oldIndex) := by
  induction l with
  | nil => simp [insertByOldIndex]
  | cons x xs ih =>
    rw [List.pairwise_cons] at h
    by_cases hc : x.oldIndex ≤ m.oldIndex
    · have heq : insertByOldIndex m (x :: xs) = x :: insertByOldIndex m xs := by
        simp only [insertByOldIndex]
        rw [if_pos hc]
      rw [heq, List.pairwise_cons]
      refine ⟨?_, ih h.2⟩
      intro b hb
      rcases (mem_insertByOldIndex m b xs).mp hb with hbm | hbx
      · subst hbm
        exact hc
      · exact h.1 b hbx
    · have heq : insertByOldIndex m (x :: xs) = m :: x :: xs := by
        simp only [insertByOldIndex]
        rw [if_neg hc]
      rw [heq, List.pairwise_cons]
      constructor
      · intro b hb
        rcases List.mem_cons.mp hb with hbx | hbxs
        · subst hbx
          omega
        · have hxb := h.1 b hbxs
          omega
      · exact List.pairwise_cons.mpr h

/-- The whole sort is sorted by `oldIndex`. -/
theorem sortByOldIndex_pairwise (ms : List MatchRec) :
    (sortByOldIndex ms).Pairwise (fun a b => a.oldIndex ≤ b.oldIndex) := by
  have key : ∀ acc, acc.Pairwise (fun a b : MatchRec => a.oldIndex ≤ b.oldIndex) →
      (ms.foldl (fun acc m => insertByOldIndex m acc) acc).Pairwise
        (fun a b => a.oldIndex ≤ b.oldIndex) := by
    induction ms with
    | nil => intro acc h; exact h
    | cons m tl ih => intro acc h; exact ih _ (insertByOldIndex_pairwise m acc h)
  exact key [] List.Pairwise.nil

/-- Unmatched old indices are visited strictly descending. -/
theorem filtered_range_reverse_desc (n : Nat) (used : List Nat) :
    (((List.range n).reverse).filter (fun i => ! used.contains i)).Pairwise (· > ·) := by
  have h1 : ((List.range n).reverse).Pairwise (· > ·) := by
    rw [List.pairwise_reverse]
    exact List.pairwise_lt_range n
  exact List.Pairwise.sublist (List.filter_sublist _) h1

/-- Unmatched new indices are visited strictly ascending. -/
theorem filtered_range_asc (n : Nat) (used : List Nat) :
    ((List.range n).filter (fun i => ! used.contains i)).Pairwise (· < ·) :=
  List.Pairwise.sublist (List.filter_sublist _) (List.pairwise_lt_range n)

/-- With `debug` off, `diffChildren` is exactly the matched-pairs fold over
the sorted matches followed by the removal section then the addition
section. -/
theorem diffChildrenF_sections (fuel : Nat) (options : DiffOptions)
    (hdbg : options.debug = false) (oldCs newCs : List VirtualNode)
    (route : List Nat) (dc : Nat) :
    (diffChildrenF fuel (some oldCs) (some newCs) route options dc).1 =
      (pass2Fold (fun a b r d => diffNodeF fuel a b r options d) oldCs newCs
        route options (sortByOldIndex (computeMatches oldCs newCs options).1)
        ([], dc)).1
      ++ removeSection oldCs route (computeMatches oldCs newCs options).2.1
      ++ addSection newCs route (computeMatches oldCs newCs options).2.2 := by
  unfold diffChildrenF diffChildrenWith
  simp only [Option.getD_some]
  rw [pass3Go_no_debug _ _ _ _ _ hdbg, pass4Go_no_debug _ _ _ _ _ hdbg]
  simp [removeSection, addSection, List.append_assoc]

/-- With `debug` off, an unskipped matching element pair emits its attribute
operations first, then the form-state operations, then the child operations
produced by `diffChildren` at one less fuel. -/
theorem diffNodeF_element_order (fuel : Nat) (options : DiffOptions)
    (hdbg : options.debug = false) (oldNode newNode : VirtualNode)
    (route : List Nat) (dc : Nat) (he : oldNode.nodeType = NT_ELEMENT)
    (hm : elementsMatch oldNode newNode options = true)
    (hof : oldNode.skipFull = false) (hnf : newNode.skipFull = false)
    (hoi : oldNode.innerDone = false) (hni : newNode.innerDone = false)
    (hsc : options.skipChildren = false) :
    (diffNodeF (fuel + 1) oldNode newNode route options dc).1 =
      diffAttributes oldNode.attributes newNode.attributes route options
      ++ (if options.valueDiffing then formStateDiffs oldNode newNode route else [])
      ++ (diffChildrenF fuel oldNode.childNodes newNode.childNodes route options
          (dc + (diffAttributes oldNode.attributes newNode.attributes route options
            ++ (if options.valueDiffing then formStateDiffs oldNode newNode route
                else [])).length)).1 := by
  unfold diffNodeF
  rw [if_neg (by simp [hdbg]), if_neg (by simp [hof, hnf]), if_neg (by simp [hm]),
    if_neg (by simp [he, NT_ELEMENT, NT_TEXT, NT_COMMENT]), if_pos he,
    if_neg (by simp [hdbg]), if_neg (by simp [hoi, hni, hsc])]
  rfl

/-- C8: the edit script a node pair emits keeps the claimed order.  For an
element pair (matching, unskipped, `debug` off) the operations are the
attribute section, then the form-state section, then the child section; the
child section is the fold over the matched pairs sorted ascending by old
index (relocation, then the pair's recursive diff), followed by the
`removeElement` operations of the unmatched old children in strictly
descending index order, followed by the `addElement` operations of the
unmatched new children in strictly ascending index order. -/
theorem C8_edit_script_ordering (fuel : Nat) (options : DiffOptions)
    (hdbg : options.debug = false) :
    (∀ (oldNode newNode : VirtualNode) (route : List Nat) (dc : Nat),
      oldNode.nodeType = NT_ELEMENT →
      elementsMatch oldNode newNode options = true →
      oldNode.skipFull = false → newNode.skipFull = false →
      oldNode.innerDone = false → newNode.innerDone = false →
      options.skipChildren = false →
      (diffNodeF (fuel + 1) oldNode newNode route options dc).1 =
        diffAttributes oldNode.attributes newNode.attributes route options
        ++ (if options.valueDiffing then formStateDiffs oldNode newNode route else [])
        ++ (diffChildrenF fuel oldNode.childNodes newNode.childNodes route options
            (dc + (diffAttributes oldNode.attributes newNode.attributes route options
              ++ (if options.valueDiffing then formStateDiffs oldNode newNode route
                  else [])).length)).1)
    ∧ (∀ (oldCs newCs : List VirtualNode) (route : List Nat) (dc : Nat),
      (diffChildrenF fuel (some oldCs) (some newCs) route options dc).1 =
        (pass2Fold (fun a b r d => diffNodeF fuel a b r options d) oldCs newCs
          route options (sortByOldIndex (computeMatches oldCs newCs options).1)
          ([], dc)).1
        ++ removeSection oldCs route (computeMatches oldCs newCs options).2.1
        ++ addSection newCs route (computeMatches oldCs newCs options).2.2)
    ∧ (∀ ms : List MatchRec,
      (sortByOldIndex ms).Pairwise (fun a b => a.oldIndex ≤ b.oldIndex))
    ∧ (∀ (n : Nat) (used : List Nat),
      (((List.range n).reverse).filter (fun i => ! used.contains i)).Pairwise (· > ·)
      ∧ ((List.range n).filter (fun i => ! used.contains i)).Pairwise (· < ·)) := by
  refine ⟨?_, ?_, sortByOldIndex_pairwise, ?_⟩
  · intro oldNode newNode route dc he hm hof hnf hoi hni hsc
    exact diffNodeF_element_order fuel options hdbg oldNode newNode route dc
      he hm hof hnf hoi hni hsc
  · intro oldCs newCs route dc
    exact diffChildrenF_sections fuel options hdbg oldCs newCs route dc
  · intro n used
    exact ⟨filtered_range_reverse_desc n used, filtered_range_asc n used⟩

/-- Witness for C8 at the keyed-reorder fixture with default options. -/
theorem C8_witness :
    (diffNodeF 20 oldABC newCAB [] defaultOptions 0).1 =
      diffAttributes oldABC.attributes newCAB.attributes [] defaultOptions
      ++ (if defaultOptions.valueDiffing then formStateDiffs oldABC newCAB [] else [])
      ++ (diffChildrenF 19 oldABC.childNodes newCAB.childNodes [] defaultOptions
          (0 + (diffAttributes oldABC.attributes newCAB.attributes [] defaultOptions
            ++ (if defaultOptions.valueDiffing then formStateDiffs oldABC newCAB []
                else [])).length)).1 :=
  (C8_edit_script_ordering 19 defaultOptions rfl).1 oldABC newCAB [] 0
    rfl rfl rfl rfl rfl rfl rfl

end Solidstep
